import Mathlib

/-! # Cathode-Retro (NTSCify): signal encoder and CRT projector

A shallow embedding of the host-side C++ of the repository:

* `Include/NTSCify/Internal/Generator/RGBToSVideoOrComposite.h`
* `Source/NTSCify/Internal/Generator/RGBToSVideoOrComposite.h`
* `Include/NTSCify/Internal/Decoder/CompositeToSVideo.h`
* `Source/NTSCify/RGBToCRT.h`

Conventions.

* A `uint32_t` is a `Nat`; every operation that can wrap is written with an
  explicit `% 2 ^ 32`.
* A `float` is read as an exact rational (`ℚ`): rounding is not modelled.  A
  division by zero has no rational value (the C++ yields an infinity or a NaN,
  the `/` of `ℚ` yields `0`), so statements about the value of a quotient carry
  the hypothesis that its divisor is not zero.
* A call on the graphics device is logged: a member function returns the new
  object state together with the list of device calls it issued, in order.
-/

namespace NTSCify

/-! ## Types taken from headers that the classes include -/

/-- Signal kinds named by `Generate` (`SignalType::Composite`) and by the
specification (Composite or SVideo); `SourceSettings.h` declares the enum. -/
inductive SignalType where
  | SVideo
  | Composite
  deriving DecidableEq, Repr

/-- Sampler modes handed to `RenderQuad`. -/
inductive SamplerType where
  | Clamp
  | Wrap
  | LinearClamp
  deriving DecidableEq, Repr

/-- Levels written through `levelsOut` (`SignalLevels.h`). -/
structure SignalLevels where
  blackLevel : ℚ
  whiteLevel : ℚ
  saturationScale : ℚ
  deriving DecidableEq

/-- The part of `ArtifactSettings` that the encoder reads. -/
structure ArtifactSettings where
  instabilityScale : ℚ
  deriving DecidableEq

/-- An `ITexture *` argument: the identity of a texture owned by the caller. -/
abbrev TextureHandle := Nat

/-- Kernels created through `CreateShader`. -/
inductive ShaderID where
  | RGBToSVideoOrComposite
  | GeneratePhaseTexture
  | CompositeToSVideo
  deriving DecidableEq, Repr

/-! ## `RGBToSVideoOrComposite` -/

/-- Constant block of the phase-texture pass (`GeneratePhaseTextureConstantData`). -/
structure GeneratePhaseTextureConstantData where
  initialFrameStartPhase : ℚ
  prevFrameStartPhase : ℚ
  phaseIncrementPerScanline : ℚ
  samplesPerColorburstCycle : Nat
  instabilityScale : ℚ
  noiseSeed : Nat
  signalTextureWidth : Nat
  scanlineCount : Nat
  deriving DecidableEq

/-- Constant block of the encode pass (`RGBToSVideoConstantData`). -/
structure RGBToSVideoConstantData where
  outputTexelsPerColorburstCycle : Nat
  inputWidth : Nat
  outputWidth : Nat
  scanlineCount : Nat
  compositeBlend : ℚ
  instabilityScale : ℚ
  noiseSeed : Nat
  deriving DecidableEq

/-- Constant block of the luma/chroma separation pass (`ConstantData` of
`CompositeToSVideo`). -/
structure CompositeToSVideoConstantData where
  outputTexelsPerColorburstCycle : Nat
  invInputWidth : ℚ
  invInputHeight : ℚ
  deriving DecidableEq

/-- What is uploaded into the single constant buffer of a stage. -/
inductive ConstantPayload where
  | phase (cd : GeneratePhaseTextureConstantData)
  | encode (cd : RGBToSVideoConstantData)
  | separate (cd : CompositeToSVideoConstantData)
  deriving DecidableEq

/-- Calls on `IGraphicsDevice` issued by the signal stages.  The constant
buffer argument is always the stage's own `constantBuffer`, so it is not
recorded.  `UpdateConstantBuffer` is the upload of `Include/`,
`DiscardAndUpdateBuffer` the upload of `Source/`. -/
inductive DeviceCall where
  | UpdateConstantBuffer (data : ConstantPayload)
  | DiscardAndUpdateBuffer (data : ConstantPayload)
  | RenderQuad (shader : ShaderID) (output : TextureHandle)
      (inputs : List TextureHandle) (samplers : List SamplerType)
  deriving DecidableEq

/-- Data members of `RGBToSVideoOrComposite` (the shader and buffer handles
are device objects and carry no value). -/
structure RGBToSVideoOrComposite where
  rgbTextureWidth : Nat
  scanlineCount : Nat
  signalTextureWidth : Nat
  noiseSeed : Nat
  deriving DecidableEq

/-- Arguments of one `Generate` call, apart from the device and `levelsOut`. -/
structure GenerateArgs where
  signalType : SignalType
  rgbTexture : TextureHandle
  phaseTextureOut : TextureHandle
  signalTextureOut : TextureHandle
  initialFramePhase : ℚ
  prevFrameStartPhase : ℚ
  phaseIncrementPerScanline : ℚ
  artifactSettings : ArtifactSettings
  deriving DecidableEq

/-- Result of one `Generate` call. -/
structure GenerateResult where
  self : RGBToSVideoOrComposite
  levelsOut : SignalLevels
  calls : List DeviceCall
  deriving DecidableEq

namespace RGBToSVideoOrComposite

/-- Constructor: stores the three dimensions, `noiseSeed = 0`. -/
def new (rgbTextureWidthIn signalTextureWidthIn scanlineCountIn : Nat) :
    RGBToSVideoOrComposite :=
  { rgbTextureWidth := rgbTextureWidthIn
    scanlineCount := scanlineCountIn
    signalTextureWidth := signalTextureWidthIn
    noiseSeed := 0 }

/-- The statement `noiseSeed = (noiseSeed + 1) & 0x000FFFFF` on a `uint32_t`. -/
def nextNoiseSeed (noiseSeed : Nat) : Nat :=
  ((noiseSeed + 1) % 2 ^ 32) &&& 0x000FFFFF

/-- The `GeneratePhaseTextureConstantData` temporary of the `Generate` of
`Include/` (designated initialisers).  `k_signalSamplesPerColorCycle` comes from
`Constants.h` and is a parameter. -/
def phaseConstants (k_signalSamplesPerColorCycle : Nat) (self : RGBToSVideoOrComposite)
    (a : GenerateArgs) : GeneratePhaseTextureConstantData :=
  { initialFrameStartPhase := a.initialFramePhase
    prevFrameStartPhase := a.prevFrameStartPhase
    phaseIncrementPerScanline := a.phaseIncrementPerScanline
    samplesPerColorburstCycle := k_signalSamplesPerColorCycle
    instabilityScale := a.artifactSettings.instabilityScale
    noiseSeed := self.noiseSeed
    signalTextureWidth := self.signalTextureWidth
    scanlineCount := self.scanlineCount }

/-- The `RGBToSVideoConstantData` temporary of the `Generate` of `Include/`. -/
def encodeConstants (k_signalSamplesPerColorCycle : Nat) (self : RGBToSVideoOrComposite)
    (a : GenerateArgs) : RGBToSVideoConstantData :=
  { outputTexelsPerColorburstCycle := k_signalSamplesPerColorCycle
    inputWidth := self.rgbTextureWidth
    outputWidth := self.signalTextureWidth
    scanlineCount := self.scanlineCount
    compositeBlend := if a.signalType = SignalType.Composite then 1 else 0
    instabilityScale := a.artifactSettings.instabilityScale
    noiseSeed := self.noiseSeed }

/-- The `Generate` of `Include/` (`UpdateConstantBuffer`). -/
def Generate (k_signalSamplesPerColorCycle : Nat) (self : RGBToSVideoOrComposite)
    (a : GenerateArgs) : GenerateResult :=
  { self := { self with noiseSeed := nextNoiseSeed self.noiseSeed }
    levelsOut := { blackLevel := 0, whiteLevel := 1, saturationScale := 1 / 2 }
    calls :=
      [ DeviceCall.UpdateConstantBuffer
          (ConstantPayload.phase (phaseConstants k_signalSamplesPerColorCycle self a)),
        DeviceCall.RenderQuad ShaderID.GeneratePhaseTexture a.phaseTextureOut []
          [SamplerType.LinearClamp],
        DeviceCall.UpdateConstantBuffer
          (ConstantPayload.encode (encodeConstants k_signalSamplesPerColorCycle self a)),
        DeviceCall.RenderQuad ShaderID.RGBToSVideoOrComposite a.signalTextureOut
          [a.rgbTexture, a.phaseTextureOut] [SamplerType.LinearClamp] ] }

/-- The local `GeneratePhaseTextureConstantData cd` of the `Generate` of `Source/`:
positional initialisers, in the declaration order of the struct. -/
def phaseConstantsSource (k_signalSamplesPerColorCycle : Nat)
    (self : RGBToSVideoOrComposite) (a : GenerateArgs) : GeneratePhaseTextureConstantData :=
  ⟨a.initialFramePhase, a.prevFrameStartPhase, a.phaseIncrementPerScanline,
    k_signalSamplesPerColorCycle, a.artifactSettings.instabilityScale, self.noiseSeed,
    self.signalTextureWidth, self.scanlineCount⟩

/-- The local `RGBToSVideoConstantData cd` of the `Generate` of `Source/`. -/
def encodeConstantsSource (k_signalSamplesPerColorCycle : Nat)
    (self : RGBToSVideoOrComposite) (a : GenerateArgs) : RGBToSVideoConstantData :=
  ⟨k_signalSamplesPerColorCycle, self.rgbTextureWidth, self.signalTextureWidth,
    self.scanlineCount, if a.signalType = SignalType.Composite then 1 else 0,
    a.artifactSettings.instabilityScale, self.noiseSeed⟩

/-- The `Generate` of `Source/` (`DiscardAndUpdateBuffer`). -/
def GenerateSource (k_signalSamplesPerColorCycle : Nat) (self : RGBToSVideoOrComposite)
    (a : GenerateArgs) : GenerateResult :=
  { self := { self with noiseSeed := nextNoiseSeed self.noiseSeed }
    levelsOut := { blackLevel := 0, whiteLevel := 1, saturationScale := 1 / 2 }
    calls :=
      [ DeviceCall.DiscardAndUpdateBuffer
          (ConstantPayload.phase (phaseConstantsSource k_signalSamplesPerColorCycle self a)),
        DeviceCall.RenderQuad ShaderID.GeneratePhaseTexture a.phaseTextureOut []
          [SamplerType.LinearClamp],
        DeviceCall.DiscardAndUpdateBuffer
          (ConstantPayload.encode (encodeConstantsSource k_signalSamplesPerColorCycle self a)),
        DeviceCall.RenderQuad ShaderID.RGBToSVideoOrComposite a.signalTextureOut
          [a.rgbTexture, a.phaseTextureOut] [SamplerType.LinearClamp] ] }

/-- The encoder after a sequence of `Generate` calls (`Include/`), one per
element of `frames`, first element first. -/
def generateAll (k : Nat) (self : RGBToSVideoOrComposite) :
    List GenerateArgs → RGBToSVideoOrComposite
  | [] => self
  | a :: rest => generateAll k (Generate k self a).self rest

/-- The encoder after a sequence of `Generate` calls (`Source/`). -/
def generateAllSource (k : Nat) (self : RGBToSVideoOrComposite) :
    List GenerateArgs → RGBToSVideoOrComposite
  | [] => self
  | a :: rest => generateAllSource k (GenerateSource k self a).self rest

end RGBToSVideoOrComposite

/-! ## `CompositeToSVideo` -/

/-- Data members of `CompositeToSVideo`. -/
structure CompositeToSVideo where
  scanlineCount : Nat
  signalTextureWidth : Nat
  deriving DecidableEq

namespace CompositeToSVideo

/-- Constructor: stores both dimensions as given. -/
def new (signalTextureWidthIn scanlineCountIn : Nat) : CompositeToSVideo :=
  { scanlineCount := scanlineCountIn, signalTextureWidth := signalTextureWidthIn }

end CompositeToSVideo

/-- The fields of `ScreenSettings` that `RGBToCRT` reads (`NTSCify/ScreenSettings.h`
declares the struct).  The overscan margins are 32-bit unsigned: `Render` has to
convert their difference through `int32_t` to obtain a sign.  Two settings are
byte-identical (`memcmp`) exactly when they are equal as values of this type. -/
structure ScreenSettings where
  inputPixelAspectRatio : ℚ
  overscanLeft : Nat
  overscanRight : Nat
  overscanTop : Nat
  overscanBottom : Nat
  horizontalDistortion : ℚ
  verticalDistortion : ℚ
  screenEdgeRoundingX : ℚ
  screenEdgeRoundingY : ℚ
  cornerRounding : ℚ
  shadowMaskScale : ℚ
  shadowMaskStrength : ℚ
  phosphorDecay : ℚ
  scanlineStrength : ℚ
  deriving DecidableEq

/-- Constant block of the screen passes (`RGBToScreenConstants`). -/
structure RGBToScreenConstants where
  viewScaleX : ℚ
  viewScaleY : ℚ
  overscanScaleX : ℚ
  overscanScaleY : ℚ
  overscanOffsetX : ℚ
  overscanOffsetY : ℚ
  distortionX : ℚ
  distortionY : ℚ
  maskDistortionX : ℚ
  maskDistortionY : ℚ
  shadowMaskScaleX : ℚ
  shadowMaskScaleY : ℚ
  shadowMaskStrength : ℚ
  roundedCornerSize : ℚ
  phosphorDecay : ℚ
  scanlineCount : ℚ
  scanlineStrength : ℚ
  signalTextureWidth : ℚ
  deriving DecidableEq

/-- Local constant block of `GenerateShadowMaskTexture`. -/
structure GenerateShadowMaskConstants where
  blackLevel : ℚ
  coordinateScale : ℚ
  texWidth : ℚ
  texHeight : ℚ
  deriving DecidableEq

/-- Pixel shaders created through `CreatePixelShader`. -/
inductive PixelShader where
  | IDR_RGB_TO_CRT
  | IDR_GENERATE_SCREEN_TEXTURE
  | IDR_GENERATE_SHADOW_MASK
  | IDR_DOWNSAMPLE_2X
  deriving DecidableEq, Repr

/-- Texture formats named in `RGBToCRT.h`. -/
inductive TextureFormat where
  | DXGI_FORMAT_R16G16B16A16_FLOAT
  | DXGI_FORMAT_R8G8B8A8_UNORM
  deriving DecidableEq, Repr

/-- A texture object returned by `CreateTexture`: what `Width()` and `Height()`
report, and the number of mip levels (`1` for the overload without a count). -/
structure Texture where
  width : Nat
  height : Nat
  mipCount : Nat
  format : TextureFormat
  deriving DecidableEq

/-- The textures an `RGBToCRT` pass can name. -/
inductive TextureRef where
  | shadowMaskTexture
  | screenTexture
  | input (t : TextureHandle)
  deriving DecidableEq

/-- Output of a pass: `nullptr` (the backbuffer), a whole texture, or one mip
level of a texture (`CreateMipLevelTarget`). -/
inductive RenderTarget where
  | backbuffer
  | texture (t : TextureRef)
  | mipLevel (t : TextureRef) (level : Nat)
  deriving DecidableEq

/-- Input of a pass: a whole texture or one mip level of it
(`CreateMipLevelSource`). -/
inductive ShaderInput where
  | texture (t : TextureRef)
  | mipLevel (t : TextureRef) (level : Nat)
  deriving DecidableEq

/-- The constant buffers of `RGBToCRT`; `constBuf` is the local buffer of
`GenerateShadowMaskTexture`. -/
inductive BufferRef where
  | constantBuffer
  | samplePatternConstantBuffer
  | constBuf
  deriving DecidableEq, Repr

/-- What `DiscardAndUpdateBuffer` uploads. -/
inductive BufferData where
  | screen (data : RGBToScreenConstants)
  | samplingPattern (pattern : List ℚ)
  | shadowMask (consts : GenerateShadowMaskConstants)
  deriving DecidableEq

/-- Calls on `GraphicsDevice` issued by `RGBToCRT` that allocate a texture, upload
constants or submit a pass.  The creation of shader, buffer and mip-level view
objects is not logged: those objects appear as the arguments of the passes. -/
inductive CRTCall where
  | CreateTexture (tex : Texture)
  | DiscardAndUpdateBuffer (buffer : BufferRef) (data : BufferData)
  | RenderQuadWithPixelShader (shader : PixelShader) (target : RenderTarget)
      (inputs : List ShaderInput) (samplers : List SamplerType)
      (constantBuffers : List BufferRef)
  deriving DecidableEq

/-- Data members of `RGBToCRT` that carry a value. -/
structure RGBToCRT where
  inputImageWidth : Nat
  signalTextureWidth : Nat
  scanlineCount : Nat
  shadowMaskTexture : Option Texture
  screenTexture : Option Texture
  screenSettings : ScreenSettings
  screenSettingsDirty : Bool
  deriving DecidableEq

/-- The 16-sample pattern `k_samplingPattern16X` (two coordinates and two
padding floats per sample). -/
def k_samplingPattern16X : List ℚ :=
  [ 1 / 8, 1 / 8, 0, 0,
    -1 / 8, -3 / 8, 0, 0,
    -3 / 8, 2 / 8, 0, 0,
    4 / 8, -1 / 8, 0, 0,
    -5 / 8, -2 / 8, 0, 0,
    2 / 8, 5 / 8, 0, 0,
    5 / 8, 3 / 8, 0, 0,
    3 / 8, -5 / 8, 0, 0,
    -2 / 8, 6 / 8, 0, 0,
    0 / 8, -7 / 8, 0, 0,
    -4 / 8, -6 / 8, 0, 0,
    -6 / 8, 4 / 8, 0, 0,
    -8 / 8, 0 / 8, 0, 0,
    7 / 8, -4 / 8, 0, 0,
    6 / 8, 7 / 8, 0, 0,
    -7 / 8, -8 / 8, 0, 0 ]

/-- Sum of two `uint32_t`. -/
def add32 (a b : Nat) : Nat := (a + b) % 2 ^ 32

/-- Difference of two `uint32_t`. -/
def sub32 (a b : Nat) : Nat := (a % 2 ^ 32 + (2 ^ 32 - b % 2 ^ 32)) % 2 ^ 32

/-- The conversion `int32_t(x)` of a `uint32_t`. -/
def toInt32 (x : Nat) : Int :=
  if x % 2 ^ 32 < 2 ^ 31 then ((x % 2 ^ 32 : Nat) : Int)
  else ((x % 2 ^ 32 : Nat) : Int) - 2 ^ 32

namespace RGBToCRT

/-- The loop `for (destMip = 1; destMip < k_mipCount; destMip++)` of
`GenerateShadowMaskTexture`, entered at `destMip`: each round creates the source
view of level `destMip - 1`, the target view of level `destMip`, and runs the
2x downsample from the one into the other. -/
def downsampleLoop (k_mipCount destMip : Nat) : List CRTCall :=
  if destMip < k_mipCount then
    CRTCall.RenderQuadWithPixelShader PixelShader.IDR_DOWNSAMPLE_2X
        (RenderTarget.mipLevel TextureRef.shadowMaskTexture destMip)
        [ShaderInput.mipLevel TextureRef.shadowMaskTexture (destMip - 1)]
        [SamplerType.Wrap] []
      :: downsampleLoop k_mipCount (destMip + 1)
  else []
termination_by k_mipCount - destMip

/-- The member `GenerateShadowMaskTexture` (`k_size = 512`, `k_mipCount = 8`). -/
def GenerateShadowMaskTexture (self : RGBToCRT) : RGBToCRT × List CRTCall :=
  let k_size : Nat := 512
  let k_mipCount : Nat := 8
  let tex : Texture :=
    { width := k_size, height := k_size / 2, mipCount := k_mipCount,
      format := TextureFormat.DXGI_FORMAT_R8G8B8A8_UNORM }
  let consts : GenerateShadowMaskConstants :=
    { blackLevel := 0
      coordinateScale := 1 / (k_size : ℚ)
      texWidth := (k_size : ℚ)
      texHeight := ((k_size / 2 : Nat) : ℚ) }
  ({ self with shadowMaskTexture := some tex },
    [ CRTCall.CreateTexture tex,
      CRTCall.DiscardAndUpdateBuffer BufferRef.constBuf (BufferData.shadowMask consts),
      CRTCall.RenderQuadWithPixelShader PixelShader.IDR_GENERATE_SHADOW_MASK
        (RenderTarget.texture TextureRef.shadowMaskTexture) [] [SamplerType.Clamp]
        [BufferRef.constBuf] ]
    ++ downsampleLoop k_mipCount 1)

/-- Constructor.  `defaults` is the default-constructed `ScreenSettings` member
(its initialisers are in `ScreenSettings.h`).  The constructor ends by calling
`GenerateShadowMaskTexture`. -/
def new (defaults : ScreenSettings)
    (inputImageWidthIn signalTextureWidthIn scanlineCountIn : Nat) :
    RGBToCRT × List CRTCall :=
  GenerateShadowMaskTexture
    { inputImageWidth := inputImageWidthIn
      signalTextureWidth := signalTextureWidthIn
      scanlineCount := scanlineCountIn
      shadowMaskTexture := none
      screenTexture := none
      screenSettings := defaults
      screenSettingsDirty := false }

/-- The member `SetScreenSettings`: a byte compare against the stored settings. -/
def SetScreenSettings (self : RGBToCRT) (settings : ScreenSettings) : RGBToCRT :=
  if settings ≠ self.screenSettings then
    { self with screenSettings := settings, screenSettingsDirty := true }
  else self

/-- The local `overscanSizeX` of `Render`. -/
def overscanSizeX (self : RGBToCRT) : ℚ :=
  (self.inputImageWidth : ℚ)
    - ((add32 self.screenSettings.overscanLeft self.screenSettings.overscanRight : Nat) : ℚ)

/-- The local `overscanSizeY` of `Render`. -/
def overscanSizeY (self : RGBToCRT) : ℚ :=
  (self.scanlineCount : ℚ)
    - ((add32 self.screenSettings.overscanTop self.screenSettings.overscanBottom : Nat) : ℚ)

/-- The local `k_aspect` of `Render`. -/
def k_aspect (self : RGBToCRT) : ℚ :=
  self.screenSettings.inputPixelAspectRatio * overscanSizeX self / overscanSizeY self

/-- The constant `shadowMaskScaleNormalization = 240.0f * 0.7f`. -/
def shadowMaskScaleNormalization : ℚ := 240 * (7 / 10)

/-- The block of `Render` that fills `RGBToScreenConstants data` for a backbuffer
of `outputTargetWidth` by `outputTargetHeight`. -/
def screenConstants (self : RGBToCRT) (outputTargetWidth outputTargetHeight : Nat) :
    RGBToScreenConstants :=
  let s := self.screenSettings
  let wide : Bool :=
    decide ((outputTargetWidth : ℚ) > k_aspect self * (outputTargetHeight : ℚ))
  { viewScaleX :=
      if wide then (outputTargetWidth : ℚ) / (k_aspect self * (outputTargetHeight : ℚ))
      else 1
    viewScaleY :=
      if wide then 1
      else (outputTargetHeight : ℚ) / ((outputTargetWidth : ℚ) / k_aspect self)
    overscanScaleX := overscanSizeX self / (self.inputImageWidth : ℚ)
    overscanScaleY := overscanSizeY self / (self.scanlineCount : ℚ)
    overscanOffsetX :=
      ((toInt32 (sub32 s.overscanLeft s.overscanRight) : Int) : ℚ)
        / (self.inputImageWidth : ℚ) * (1 / 2)
    overscanOffsetY :=
      ((toInt32 (sub32 s.overscanTop s.overscanBottom) : Int) : ℚ)
        / (self.scanlineCount : ℚ) * (1 / 2)
    distortionX := s.horizontalDistortion
    distortionY := s.verticalDistortion
    maskDistortionX := s.screenEdgeRoundingX + s.horizontalDistortion
    maskDistortionY := s.screenEdgeRoundingY + s.verticalDistortion
    shadowMaskScaleX :=
      (self.inputImageWidth : ℚ) / (self.scanlineCount : ℚ) * s.inputPixelAspectRatio
        * shadowMaskScaleNormalization * (45 / 100) * s.shadowMaskScale
    shadowMaskScaleY := shadowMaskScaleNormalization * s.shadowMaskScale
    shadowMaskStrength := s.shadowMaskStrength
    roundedCornerSize := s.cornerRounding
    phosphorDecay := s.phosphorDecay
    scanlineCount := (self.scanlineCount : ℚ)
    scanlineStrength := s.scanlineStrength
    signalTextureWidth := (self.signalTextureWidth : ℚ) }

/-- The test `screenTexture == nullptr || screenTexture->Width() != outputTargetWidth
|| screenTexture->Height() != outputTargetHeight`. -/
def textureMismatch (screenTexture : Option Texture)
    (outputTargetWidth outputTargetHeight : Nat) : Bool :=
  match screenTexture with
  | none => true
  | some t => t.width != outputTargetWidth || t.height != outputTargetHeight

/-- The member `Render`.  `outputTargetWidth` and `outputTargetHeight` are what
`BackbufferWidth()` and `BackbufferHeight()` return during the call. -/
def Render (self : RGBToCRT) (outputTargetWidth outputTargetHeight : Nat)
    (currentFrameRGBInput previousFrameRGBInput : TextureHandle) :
    RGBToCRT × List CRTCall :=
  let data := screenConstants self outputTargetWidth outputTargetHeight
  let upload := [CRTCall.DiscardAndUpdateBuffer BufferRef.constantBuffer (BufferData.screen data)]
  let final :=
    [CRTCall.RenderQuadWithPixelShader PixelShader.IDR_RGB_TO_CRT RenderTarget.backbuffer
      [ ShaderInput.texture (TextureRef.input currentFrameRGBInput),
        ShaderInput.texture (TextureRef.input previousFrameRGBInput),
        ShaderInput.texture TextureRef.screenTexture ]
      [SamplerType.Clamp] [BufferRef.constantBuffer]]
  if self.screenSettingsDirty
      || textureMismatch self.screenTexture outputTargetWidth outputTargetHeight then
    let pattern :=
      [CRTCall.DiscardAndUpdateBuffer BufferRef.samplePatternConstantBuffer
        (BufferData.samplingPattern k_samplingPattern16X)]
    let tex : Texture :=
      { width := outputTargetWidth, height := outputTargetHeight, mipCount := 1,
        format := TextureFormat.DXGI_FORMAT_R16G16B16A16_FLOAT }
    let rebuild : Bool :=
      textureMismatch self.screenTexture outputTargetWidth outputTargetHeight
    let create := if rebuild then [CRTCall.CreateTexture tex] else []
    let generate :=
      [CRTCall.RenderQuadWithPixelShader PixelShader.IDR_GENERATE_SCREEN_TEXTURE
        (RenderTarget.texture TextureRef.screenTexture)
        [ShaderInput.texture TextureRef.shadowMaskTexture]
        [SamplerType.Wrap] [BufferRef.constantBuffer, BufferRef.samplePatternConstantBuffer]]
    ({ self with
        screenTexture := if rebuild then some tex else self.screenTexture
        screenSettingsDirty := false },
      upload ++ pattern ++ create ++ generate ++ final)
  else
    (self, upload ++ final)

end RGBToCRT

/-- Whether a list of `RGBToCRT` device calls allocates a texture. -/
def createsTexture (calls : List CRTCall) : Bool :=
  calls.any fun c =>
    match c with
    | CRTCall.CreateTexture _ => true
    | _ => false

/-- Whether a list of `RGBToCRT` device calls runs the pass with the given shader. -/
def runsPass (shader : PixelShader) (calls : List CRTCall) : Bool :=
  calls.any fun c =>
    match c with
    | CRTCall.RenderQuadWithPixelShader sh _ _ _ _ => sh == shader
    | _ => false

/-- A call made by the host on an `RGBToCRT`. -/
inductive CRTOp where
  | SetScreenSettings (settings : ScreenSettings)
  | Render (outputTargetWidth outputTargetHeight : Nat)
      (currentFrameRGBInput previousFrameRGBInput : TextureHandle)
  deriving DecidableEq

/-- Whether a host call is a `Render`. -/
def CRTOp.isRender : CRTOp → Bool
  | CRTOp.Render _ _ _ _ => true
  | CRTOp.SetScreenSettings _ => false

namespace RGBToCRT

/-- One host call: the new object and the device calls issued. -/
def step (self : RGBToCRT) : CRTOp → RGBToCRT × List CRTCall
  | CRTOp.SetScreenSettings settings => (SetScreenSettings self settings, [])
  | CRTOp.Render w h cur prev => Render self w h cur prev

/-- The object after a sequence of host calls, first element first. -/
def run (self : RGBToCRT) (ops : List CRTOp) : RGBToCRT :=
  ops.foldl (fun st op => (step st op).1) self

end RGBToCRT

/-! ## Concrete inputs used to evaluate the definitions -/

/-- A `Generate` argument list: Composite, textures 0, 1, 2, no instability. -/
def sampleGenerateArgs : GenerateArgs :=
  { signalType := SignalType.Composite
    rgbTexture := 0
    phaseTextureOut := 1
    signalTextureOut := 2
    initialFramePhase := 0
    prevFrameStartPhase := 0
    phaseIncrementPerScanline := 1 / 3
    artifactSettings := { instabilityScale := 0 } }

/-- Screen settings with the given overscan margins, square pixels and unit
shadow-mask scale; every other field is zero. -/
def overscanSettings (left right top bottom : Nat) : ScreenSettings :=
  { inputPixelAspectRatio := 1
    overscanLeft := left
    overscanRight := right
    overscanTop := top
    overscanBottom := bottom
    horizontalDistortion := 0
    verticalDistortion := 0
    screenEdgeRoundingX := 0
    screenEdgeRoundingY := 0
    cornerRounding := 0
    shadowMaskScale := 1
    shadowMaskStrength := 0
    phosphorDecay := 0
    scanlineStrength := 0 }

/-- An `RGBToCRT` as constructed for the given input size, with the given
settings stored. -/
def sampleCRT (inputImageWidth scanlineCount : Nat) (settings : ScreenSettings) : RGBToCRT :=
  (RGBToCRT.new settings inputImageWidth (4 * inputImageWidth) scanlineCount).1

/-! ## The overscan formulas as the specification words them -/

/-- Specification: `overscanScale = (sourceDim - (marginNear + marginFar)) / sourceDim`,
horizontal axis, over the rationals. -/
def specOverscanScaleX (self : RGBToCRT) : ℚ :=
  ((self.inputImageWidth : ℚ)
      - ((self.screenSettings.overscanLeft : ℚ) + (self.screenSettings.overscanRight : ℚ)))
    / (self.inputImageWidth : ℚ)

/-- Specification: the same formula on the vertical axis. -/
def specOverscanScaleY (self : RGBToCRT) : ℚ :=
  ((self.scanlineCount : ℚ)
      - ((self.screenSettings.overscanTop : ℚ) + (self.screenSettings.overscanBottom : ℚ)))
    / (self.scanlineCount : ℚ)

/-- Specification: `overscanOffset = (marginNear - marginFar) / sourceDim * 0.5`,
horizontal axis, with the true signed difference. -/
def specOverscanOffsetX (self : RGBToCRT) : ℚ :=
  ((self.screenSettings.overscanLeft : ℚ) - (self.screenSettings.overscanRight : ℚ))
    / (self.inputImageWidth : ℚ) * (1 / 2)

/-- Specification: the same formula on the vertical axis. -/
def specOverscanOffsetY (self : RGBToCRT) : ℚ :=
  ((self.screenSettings.overscanTop : ℚ) - (self.screenSettings.overscanBottom : ℚ))
    / (self.scanlineCount : ℚ) * (1 / 2)

/-! ## Bookkeeping over a sequence of host calls -/

namespace RGBToCRT

/-- The `ScreenSettings` that were stored when the generate-screen-texture pass
last ran, followed along a sequence of host calls: `snap` is the value before
the calls (`none`: the pass has not run yet). -/
def snapshotAfter (self : RGBToCRT) (snap : Option ScreenSettings) :
    List CRTOp → Option ScreenSettings
  | [] => snap
  | op :: rest =>
    snapshotAfter (step self op).1
      (if runsPass PixelShader.IDR_GENERATE_SCREEN_TEXTURE (step self op).2
        then some self.screenSettings else snap)
      rest

end RGBToCRT

/-! ## Reading the passes of `GenerateShadowMaskTexture` -/

/-- The mip level of the shadow-mask texture that a device call writes, if any: a
pass whose target is the texture itself renders into its top level, level 0; a
pass whose target is a mip-level view renders into that level. -/
def writtenShadowMaskLevel : CRTCall → Option Nat
  | CRTCall.RenderQuadWithPixelShader _ (RenderTarget.texture TextureRef.shadowMaskTexture)
      _ _ _ => some 0
  | CRTCall.RenderQuadWithPixelShader _
      (RenderTarget.mipLevel TextureRef.shadowMaskTexture level) _ _ _ => some level
  | _ => none

/-- The downsample pass number `n`: from level `n - 1` into level `n`. -/
def downsamplePass (n : Nat) : CRTCall :=
  CRTCall.RenderQuadWithPixelShader PixelShader.IDR_DOWNSAMPLE_2X
    (RenderTarget.mipLevel TextureRef.shadowMaskTexture n)
    [ShaderInput.mipLevel TextureRef.shadowMaskTexture (n - 1)]
    [SamplerType.Wrap] []

/-- A texel: its channel values. -/
abbrev Texel := List ℚ

/-- The content of a texture: the texel at column `x` of row `y`. -/
abbrev Image := Nat → Nat → Texel

/-- Modelled from the spec: the kernels `GeneratePhaseTexture` and
`RGBToSVideoOrComposite`, whose shader sources are not among the files.  The
specification fixes how the instability noise enters a sample: it is "an
amplitude/phase perturbation whose magnitude scales with `instabilityScale` and is
seeded from `noiseSeed` combined with sample coordinates", and there is "no
different code path, just a multiply by zero".  So a kernel sees the seed only
through the perturbation `instabilityScale * noise seed x y`; what it computes
from its other constants, its input textures, the texel coordinate and that
perturbation is left open (`phaseTexel`, `signalTexel`). -/
structure EncoderKernels where
  noise : Nat → Nat → Nat → ℚ
  phaseTexel : ℚ → ℚ → ℚ → Nat → Nat → Nat → Nat → Nat → ℚ → Texel
  signalTexel : Nat → Nat → Nat → Nat → ℚ → List Image → Nat → Nat → ℚ → Texel

namespace EncoderKernels

/-- Modelled from the spec: the noise term of the sample at `(x, y)`, the noise
of the seed and the coordinates multiplied by `instabilityScale`. -/
def perturbation (K : EncoderKernels) (instabilityScale : ℚ) (noiseSeed x y : Nat) : ℚ :=
  instabilityScale * K.noise noiseSeed x y

/-- Modelled from the spec: the phase-texture kernel run on its constant block. -/
def runGeneratePhaseTexture (K : EncoderKernels) (cd : GeneratePhaseTextureConstantData) :
    Image :=
  fun x y =>
    K.phaseTexel cd.initialFrameStartPhase cd.prevFrameStartPhase
      cd.phaseIncrementPerScanline cd.samplesPerColorburstCycle cd.signalTextureWidth
      cd.scanlineCount x y (K.perturbation cd.instabilityScale cd.noiseSeed x y)

/-- Modelled from the spec: the encode kernel run on its constant block and its
input textures (the RGB source and the phase texture). -/
def runRGBToSVideoOrComposite (K : EncoderKernels) (cd : RGBToSVideoConstantData)
    (inputs : List Image) : Image :=
  fun x y =>
    K.signalTexel cd.outputTexelsPerColorburstCycle cd.inputWidth cd.outputWidth
      cd.scanlineCount cd.compositeBlend inputs x y
      (K.perturbation cd.instabilityScale cd.noiseSeed x y)

end EncoderKernels

/-- Modelled from the spec: the state of the rendering backend that the encoder
touches, the content of the stage's constant buffer and of every texture. -/
structure DeviceState where
  constantBuffer : Option ConstantPayload
  textures : TextureHandle → Image

namespace DeviceState

/-- Modelled from the spec: one device call (section 6: an upload is visible to
the next kernel that reads the buffer; `RunKernel` computes every texel of the
output texture from the input textures and the constant buffer).  A pass whose
constant buffer does not hold the block of its kernel, and the separation kernel,
leave the textures as they are. -/
def exec (K : EncoderKernels) (d : DeviceState) : DeviceCall → DeviceState
  | DeviceCall.UpdateConstantBuffer data => { d with constantBuffer := some data }
  | DeviceCall.DiscardAndUpdateBuffer data => { d with constantBuffer := some data }
  | DeviceCall.RenderQuad shader output inputs _ =>
    match shader, d.constantBuffer with
    | ShaderID.GeneratePhaseTexture, some (ConstantPayload.phase cd) =>
      { d with textures := Function.update d.textures output (K.runGeneratePhaseTexture cd) }
    | ShaderID.RGBToSVideoOrComposite, some (ConstantPayload.encode cd) =>
      { d with
        textures :=
          Function.update d.textures output
            (K.runRGBToSVideoOrComposite cd (inputs.map d.textures)) }
    | _, _ => d

/-- The device after a list of calls, first call first. -/
def execAll (K : EncoderKernels) (d : DeviceState) (calls : List DeviceCall) : DeviceState :=
  calls.foldl (exec K) d

end DeviceState

/-- A pair of kernels that add the perturbation to a value computed from the
constants, with a noise that differs from seed to seed. -/
def sampleKernels : EncoderKernels :=
  { noise := fun seed x y => (seed : ℚ) + (x : ℚ) + (y : ℚ) + 1
    phaseTexel := fun start _ inc _ _ _ _ y p => [start + inc * (y : ℚ) + p]
    signalTexel := fun _ _ _ _ blend inputs x y p =>
      [blend + p, ((inputs.map fun img => (img x y).sum).sum)] }

/-- A device with an empty constant buffer and empty textures. -/
def emptyDevice : DeviceState :=
  { constantBuffer := none, textures := fun _ _ _ => [] }

namespace RGBToCRT

/-- The object obtained by constructing an `RGBToCRT` and then making the host
calls `ops` on it. -/
def afterCalls (defaults : ScreenSettings) (inputImageWidthIn signalTextureWidthIn
    scanlineCountIn : Nat) (ops : List CRTOp) : RGBToCRT :=
  run (new defaults inputImageWidthIn signalTextureWidthIn scanlineCountIn).1 ops

end RGBToCRT

/-! ## The constants a pass runs with -/

/-- A submitted pass as the kernel sees it: its shader, its output texture, its
input textures in order, and the content of the constant buffer when it runs
(`none`: nothing uploaded yet). -/
structure SubmittedPass where
  shader : ShaderID
  output : TextureHandle
  inputs : List TextureHandle
  constants : Option ConstantPayload
  deriving DecidableEq

/-- The passes of a list of device calls, in submission order, each with the
constant block uploaded last before it; `buffer` is the content of the constant
buffer before the first call. -/
def passesWithConstants (buffer : Option ConstantPayload) :
    List DeviceCall → List SubmittedPass
  | [] => []
  | DeviceCall.UpdateConstantBuffer data :: rest => passesWithConstants (some data) rest
  | DeviceCall.DiscardAndUpdateBuffer data :: rest => passesWithConstants (some data) rest
  | DeviceCall.RenderQuad shader output inputs _ :: rest =>
    { shader := shader, output := output, inputs := inputs, constants := buffer }
      :: passesWithConstants buffer rest

/-- Screen settings with margins 8, 8, 8, 8 and the pixel aspect ratio `8 / 7`:
on a 256x240 source the effective aspect is `8 / 7 * 240 / 224 = 60 / 49`. -/
def widePixelSettings : ScreenSettings :=
  { overscanSettings 8 8 8 8 with inputPixelAspectRatio := 8 / 7 }

/-! ## Proofs -/

/-- One step of the seed is the successor modulo `2 ^ 20`. -/
theorem nextNoiseSeed_eq (s : Nat) :
    RGBToSVideoOrComposite.nextNoiseSeed s = (s + 1) % 2 ^ 20 := by
  unfold RGBToSVideoOrComposite.nextNoiseSeed
  have h : (0x000FFFFF : Nat) = 2 ^ 20 - 1 := by norm_num
  rw [h, Nat.and_pow_two_sub_one_eq_mod]
  have hd : (2 : Nat) ^ 20 ∣ 2 ^ 32 := pow_dvd_pow 2 (by norm_num)
  exact Nat.mod_mod_of_dvd _ hd

/-- The seed after a run of `Generate` calls of `Include/`. -/
theorem generateAll_noiseSeed (k : Nat) (frames : List GenerateArgs) :
    ∀ self : RGBToSVideoOrComposite, self.noiseSeed < 2 ^ 20 →
      (RGBToSVideoOrComposite.generateAll k self frames).noiseSeed
        = (self.noiseSeed + frames.length) % 2 ^ 20 := by
  induction frames with
  | nil =>
    intro self h
    simp only [RGBToSVideoOrComposite.generateAll, List.length_nil, Nat.add_zero]
    exact (Nat.mod_eq_of_lt h).symm
  | cons a rest ih =>
    intro self h
    have hstep : (RGBToSVideoOrComposite.Generate k self a).self.noiseSeed
        = (self.noiseSeed + 1) % 2 ^ 20 := nextNoiseSeed_eq self.noiseSeed
    have hlt : (RGBToSVideoOrComposite.Generate k self a).self.noiseSeed < 2 ^ 20 := by
      rw [hstep]; exact Nat.mod_lt _ (by norm_num)
    rw [RGBToSVideoOrComposite.generateAll, ih _ hlt, hstep, List.length_cons]
    omega

/-- The seed after a run of `Generate` calls of `Source/`. -/
theorem generateAllSource_noiseSeed (k : Nat) (frames : List GenerateArgs) :
    ∀ self : RGBToSVideoOrComposite, self.noiseSeed < 2 ^ 20 →
      (RGBToSVideoOrComposite.generateAllSource k self frames).noiseSeed
        = (self.noiseSeed + frames.length) % 2 ^ 20 := by
  induction frames with
  | nil =>
    intro self h
    simp only [RGBToSVideoOrComposite.generateAllSource, List.length_nil, Nat.add_zero]
    exact (Nat.mod_eq_of_lt h).symm
  | cons a rest ih =>
    intro self h
    have hstep : (RGBToSVideoOrComposite.GenerateSource k self a).self.noiseSeed
        = (self.noiseSeed + 1) % 2 ^ 20 := nextNoiseSeed_eq self.noiseSeed
    have hlt : (RGBToSVideoOrComposite.GenerateSource k self a).self.noiseSeed < 2 ^ 20 := by
      rw [hstep]; exact Nat.mod_lt _ (by norm_num)
    rw [RGBToSVideoOrComposite.generateAllSource, ih _ hlt, hstep, List.length_cons]
    omega

/-! ### C1 -/

/-- C1: starting from a seed `S < 2 ^ 20`, after `N` calls of `Generate` (any
arguments, either version of the header) the encoder's `noiseSeed` is
`(S + N) mod 2 ^ 20`; a freshly constructed encoder has seed `0`. -/
theorem noiseSeed_after_N_calls (k : Nat) (self : RGBToSVideoOrComposite)
    (frames : List GenerateArgs) (hS : self.noiseSeed < 2 ^ 20)
    (rgbW sigW lines : Nat) :
    (RGBToSVideoOrComposite.generateAll k self frames).noiseSeed
        = (self.noiseSeed + frames.length) % 2 ^ 20
      ∧ (RGBToSVideoOrComposite.generateAllSource k self frames).noiseSeed
        = (self.noiseSeed + frames.length) % 2 ^ 20
      ∧ (RGBToSVideoOrComposite.new rgbW sigW lines).noiseSeed = 0 :=
  ⟨generateAll_noiseSeed k frames self hS, generateAllSource_noiseSeed k frames self hS, rfl⟩

/-- The seed `2 ^ 20 - 1` wraps to `1` after two calls. -/
theorem noiseSeed_after_N_calls_witness :
    (RGBToSVideoOrComposite.generateAll 4 ⟨256, 240, 1024, 1048575⟩
        [sampleGenerateArgs, sampleGenerateArgs]).noiseSeed = 1
      ∧ (RGBToSVideoOrComposite.generateAllSource 4 ⟨256, 240, 1024, 1048575⟩
        [sampleGenerateArgs, sampleGenerateArgs]).noiseSeed = 1
      ∧ (RGBToSVideoOrComposite.new 256 1024 240).noiseSeed = 0 :=
  noiseSeed_after_N_calls 4 ⟨256, 240, 1024, 1048575⟩
    [sampleGenerateArgs, sampleGenerateArgs] (by norm_num) 256 1024 240

/-! ### C2 -/

/-- C2: every call of `Generate` (either version of the header) writes
`blackLevel = 0.0`, `whiteLevel = 1.0`, `saturationScale = 0.5` to `levelsOut`,
whatever the encoder state and the arguments are. -/
theorem generate_levelsOut (k : Nat) (self : RGBToSVideoOrComposite) (a : GenerateArgs) :
    (RGBToSVideoOrComposite.Generate k self a).levelsOut
        = { blackLevel := 0, whiteLevel := 1, saturationScale := 1 / 2 }
      ∧ (RGBToSVideoOrComposite.GenerateSource k self a).levelsOut
        = { blackLevel := 0, whiteLevel := 1, saturationScale := 1 / 2 } :=
  ⟨rfl, rfl⟩

/-! ### C3 -/

/-- Without wrap-around the 32-bit sum is the sum. -/
theorem add32_eq (a b : Nat) (h : a + b < 2 ^ 32) : add32 a b = a + b :=
  Nat.mod_eq_of_lt h

/-- When the signed difference fits 32 bits, `int32_t(a - b)` is that difference. -/
theorem toInt32_sub32 (a b : Nat)
    (hlo : -(2 ^ 31) ≤ (a : ℤ) - b) (hhi : (a : ℤ) - b < 2 ^ 31) :
    toInt32 (sub32 a b) = (a : ℤ) - b := by
  unfold toInt32 sub32
  norm_num at hlo hhi ⊢
  split_ifs <;> omega

/-- The fields of a sample projector. -/
theorem sampleCRT_fields (w h : Nat) (s : ScreenSettings) :
    (sampleCRT w h s).inputImageWidth = w ∧ (sampleCRT w h s).scanlineCount = h
      ∧ (sampleCRT w h s).screenSettings = s := ⟨rfl, rfl, rfl⟩

/-- C3 fails as stated: for the margins `left = 2 ^ 31`, `right = 0` on a 256x240
source, `Render` computes `overscanOffsetX = -4194304`, while the formula with the
true signed difference gives `+4194304`. -/
theorem overscanOffsetX_wraps :
    0 < (sampleCRT 256 240 (overscanSettings 2147483648 0 0 0)).inputImageWidth
      ∧ 0 < (sampleCRT 256 240 (overscanSettings 2147483648 0 0 0)).scanlineCount
      ∧ (RGBToCRT.screenConstants
          (sampleCRT 256 240 (overscanSettings 2147483648 0 0 0)) 1920 1080).overscanOffsetX
        = -4194304
      ∧ specOverscanOffsetX (sampleCRT 256 240 (overscanSettings 2147483648 0 0 0)) = 4194304
      ∧ (RGBToCRT.screenConstants
          (sampleCRT 256 240 (overscanSettings 2147483648 0 0 0)) 1920 1080).overscanOffsetX
        ≠ specOverscanOffsetX (sampleCRT 256 240 (overscanSettings 2147483648 0 0 0)) := by
  have hc : (RGBToCRT.screenConstants
      (sampleCRT 256 240 (overscanSettings 2147483648 0 0 0)) 1920 1080).overscanOffsetX
        = -4194304 := by
    simp only [RGBToCRT.screenConstants, sampleCRT_fields, overscanSettings, toInt32, sub32]
    norm_num
  have hs : specOverscanOffsetX (sampleCRT 256 240 (overscanSettings 2147483648 0 0 0))
      = 4194304 := by
    simp only [specOverscanOffsetX, sampleCRT_fields, overscanSettings]
    norm_num
  refine ⟨by decide, by decide, hc, hs, ?_⟩
  rw [hc, hs]
  norm_num

/-- C3 (amended): for a source of width `W > 0` and `H > 0` scanlines and margins
whose sums do not exceed 32 bits (`left + right < 2 ^ 32`, `top + bottom < 2 ^ 32`)
and whose signed differences fit an `int32_t`, `Render` computes
`overscanScaleX = (W - (left + right)) / W`, `overscanScaleY = (H - (top + bottom)) / H`,
`overscanOffsetX = (left - right) / W * 0.5`, `overscanOffsetY = (top - bottom) / H * 0.5`;
for `W = 256`, `left = right = 8` this is `overscanScaleX = 0.9375`, `overscanOffsetX = 0`. -/
theorem overscan_constants (self : RGBToCRT) (outW outH : Nat)
    (_hW : 0 < self.inputImageWidth) (_hH : 0 < self.scanlineCount)
    (hx : self.screenSettings.overscanLeft + self.screenSettings.overscanRight < 2 ^ 32)
    (hy : self.screenSettings.overscanTop + self.screenSettings.overscanBottom < 2 ^ 32)
    (hdx : -(2 ^ 31) ≤ (self.screenSettings.overscanLeft : ℤ) - self.screenSettings.overscanRight
      ∧ (self.screenSettings.overscanLeft : ℤ) - self.screenSettings.overscanRight < 2 ^ 31)
    (hdy : -(2 ^ 31) ≤ (self.screenSettings.overscanTop : ℤ) - self.screenSettings.overscanBottom
      ∧ (self.screenSettings.overscanTop : ℤ) - self.screenSettings.overscanBottom < 2 ^ 31) :
    (RGBToCRT.screenConstants self outW outH).overscanScaleX = specOverscanScaleX self
      ∧ (RGBToCRT.screenConstants self outW outH).overscanScaleY = specOverscanScaleY self
      ∧ (RGBToCRT.screenConstants self outW outH).overscanOffsetX = specOverscanOffsetX self
      ∧ (RGBToCRT.screenConstants self outW outH).overscanOffsetY = specOverscanOffsetY self
      ∧ (self.inputImageWidth = 256 → self.screenSettings.overscanLeft = 8 →
          self.screenSettings.overscanRight = 8 →
          (RGBToCRT.screenConstants self outW outH).overscanScaleX = 15 / 16
            ∧ (RGBToCRT.screenConstants self outW outH).overscanOffsetX = 0) := by
  have hsx : (RGBToCRT.screenConstants self outW outH).overscanScaleX
      = specOverscanScaleX self := by
    simp only [RGBToCRT.screenConstants, RGBToCRT.overscanSizeX, specOverscanScaleX,
      add32_eq _ _ hx]
    push_cast
    rfl
  have hsy : (RGBToCRT.screenConstants self outW outH).overscanScaleY
      = specOverscanScaleY self := by
    simp only [RGBToCRT.screenConstants, RGBToCRT.overscanSizeY, specOverscanScaleY,
      add32_eq _ _ hy]
    push_cast
    rfl
  have hox : (RGBToCRT.screenConstants self outW outH).overscanOffsetX
      = specOverscanOffsetX self := by
    simp only [RGBToCRT.screenConstants, specOverscanOffsetX]
    rw [toInt32_sub32 _ _ hdx.1 hdx.2]
    push_cast
    rfl
  have hoy : (RGBToCRT.screenConstants self outW outH).overscanOffsetY
      = specOverscanOffsetY self := by
    simp only [RGBToCRT.screenConstants, specOverscanOffsetY]
    rw [toInt32_sub32 _ _ hdy.1 hdy.2]
    push_cast
    rfl
  refine ⟨hsx, hsy, hox, hoy, ?_⟩
  intro h256 hl hr
  rw [hsx, hox]
  simp only [specOverscanScaleX, specOverscanOffsetX, h256, hl, hr]
  norm_num

/-- The specification's test input: 256x240, margins 8, 8, 0, 0. -/
theorem overscan_constants_witness :
    (RGBToCRT.screenConstants (sampleCRT 256 240 (overscanSettings 8 8 0 0))
        1920 1080).overscanScaleX = 15 / 16
      ∧ (RGBToCRT.screenConstants (sampleCRT 256 240 (overscanSettings 8 8 0 0))
        1920 1080).overscanOffsetX = 0 :=
  (overscan_constants (sampleCRT 256 240 (overscanSettings 8 8 0 0)) 1920 1080
    (by decide) (by decide) (by decide) (by decide) (by decide) (by decide)).2.2.2.2
    rfl rfl rfl

/-! ### C4 -/

/-- The displayed aspect in terms of the local `k_aspect` of `Render`. -/
theorem viewScale_ratio_of_k_aspect (self : RGBToCRT) (outW outH : Nat)
    (hW : 0 < outW) (hH : 0 < outH) (ha : 0 < RGBToCRT.k_aspect self) :
    ((outW : ℚ) / (RGBToCRT.screenConstants self outW outH).viewScaleX)
        / ((outH : ℚ) / (RGBToCRT.screenConstants self outW outH).viewScaleY)
      = RGBToCRT.k_aspect self := by
  have hw : (outW : ℚ) ≠ 0 := by exact_mod_cast hW.ne'
  have hh : (outH : ℚ) ≠ 0 := by exact_mod_cast hH.ne'
  have hane : RGBToCRT.k_aspect self ≠ 0 := ha.ne'
  simp only [RGBToCRT.screenConstants]
  by_cases hwide : (outW : ℚ) > RGBToCRT.k_aspect self * (outH : ℚ)
  · simp only [hwide, decide_True, if_true]
    field_simp
  · simp only [hwide, decide_False, Bool.false_eq_true, if_false]
    field_simp
    ring

/-- C4: for an output of `outW > 0` by `outH > 0` and an effective aspect
`a = inputPixelAspectRatio * overscanSizeX / overscanSizeY > 0`, where
`overscanSizeX = inputImageWidth - (overscanLeft + overscanRight)` and
`overscanSizeY = scanlineCount - (overscanTop + overscanBottom)` (the sums being
32-bit unsigned), the view scales that `Render` computes satisfy
`(outW / viewScaleX) / (outH / viewScaleY) = a`, in either branch of the fit. -/
theorem viewScale_keeps_aspect (self : RGBToCRT) (outW outH : Nat) (a : ℚ)
    (hW : 0 < outW) (hH : 0 < outH)
    (hdef : a = self.screenSettings.inputPixelAspectRatio
        * ((self.inputImageWidth : ℚ)
          - (((self.screenSettings.overscanLeft + self.screenSettings.overscanRight)
              % 2 ^ 32 : Nat) : ℚ))
        / ((self.scanlineCount : ℚ)
          - (((self.screenSettings.overscanTop + self.screenSettings.overscanBottom)
              % 2 ^ 32 : Nat) : ℚ)))
    (ha : 0 < a) :
    ((outW : ℚ) / (RGBToCRT.screenConstants self outW outH).viewScaleX)
        / ((outH : ℚ) / (RGBToCRT.screenConstants self outW outH).viewScaleY)
      = a := by
  have hk : RGBToCRT.k_aspect self = a := by
    rw [hdef]
    simp only [RGBToCRT.k_aspect, RGBToCRT.overscanSizeX, RGBToCRT.overscanSizeY, add32]
  rw [← hk] at ha ⊢
  exact viewScale_ratio_of_k_aspect self outW outH hW hH ha

/-- A 256x240 source with margins 8, 8, 8, 8 and pixel aspect ratio `8 / 7` shown
on a 1920x1080 output: the effective aspect is `60 / 49`, not `1`, and the
displayed image has that aspect. -/
theorem viewScale_keeps_aspect_witness :
    (((1920 : Nat) : ℚ) / (RGBToCRT.screenConstants
          (sampleCRT 256 240 widePixelSettings) 1920 1080).viewScaleX)
        / (((1080 : Nat) : ℚ) / (RGBToCRT.screenConstants
          (sampleCRT 256 240 widePixelSettings) 1920 1080).viewScaleY)
      = 60 / 49 :=
  viewScale_keeps_aspect (sampleCRT 256 240 widePixelSettings) 1920 1080 (60 / 49)
    (by decide) (by decide)
    (by
      simp only [sampleCRT_fields, widePixelSettings, overscanSettings]
      norm_num)
    (by norm_num)

/-! ### Facts about `Render` and `SetScreenSettings` -/

/-- After `SetScreenSettings settings` the stored settings are `settings`. -/
theorem setScreenSettings_settings (self : RGBToCRT) (settings : ScreenSettings) :
    (RGBToCRT.SetScreenSettings self settings).screenSettings = settings := by
  unfold RGBToCRT.SetScreenSettings
  split_ifs with h
  · rfl
  · exact (not_not.mp h).symm

/-- A call of `SetScreenSettings` with the stored settings changes nothing. -/
theorem setScreenSettings_same (self : RGBToCRT) :
    RGBToCRT.SetScreenSettings self self.screenSettings = self := by
  simp [RGBToCRT.SetScreenSettings]

/-- A freshly created texture of the output size does not mismatch it. -/
theorem textureMismatch_created (w h m : Nat) (f : TextureFormat) :
    RGBToCRT.textureMismatch (some { width := w, height := h, mipCount := m, format := f })
      w h = false := by
  simp [RGBToCRT.textureMismatch]

/-- The texture test in words: no texture, or a width or height that differs. -/
theorem textureMismatch_iff (t : Option Texture) (w h : Nat) :
    RGBToCRT.textureMismatch t w h = true
      ↔ t = none ∨ ∃ tex, t = some tex ∧ (tex.width ≠ w ∨ tex.height ≠ h) := by
  cases t with
  | none => simp [RGBToCRT.textureMismatch]
  | some tex => simp [RGBToCRT.textureMismatch]

/-- `Render` leaves the dirty flag clear. -/
theorem render_dirty (self : RGBToCRT) (w h : Nat) (cur prev : TextureHandle) :
    (RGBToCRT.Render self w h cur prev).1.screenSettingsDirty = false := by
  unfold RGBToCRT.Render
  by_cases hc : (self.screenSettingsDirty || RGBToCRT.textureMismatch self.screenTexture w h)
      = true
  · simp only [hc, if_true]
  · simp only [hc, Bool.false_eq_true, if_false]
    simp only [Bool.or_eq_true, not_or, Bool.not_eq_true] at hc
    exact hc.1

/-- `Render` leaves a texture of the output size. -/
theorem render_texture (self : RGBToCRT) (w h : Nat) (cur prev : TextureHandle) :
    RGBToCRT.textureMismatch (RGBToCRT.Render self w h cur prev).1.screenTexture w h
      = false := by
  unfold RGBToCRT.Render
  by_cases hc : (self.screenSettingsDirty || RGBToCRT.textureMismatch self.screenTexture w h)
      = true
  · simp only [hc, if_true]
    by_cases hm : RGBToCRT.textureMismatch self.screenTexture w h = true
    · simp only [hm, if_true]
      exact textureMismatch_created w h 1 _
    · simp only [hm, Bool.false_eq_true, if_false]
  · simp only [hc, Bool.false_eq_true, if_false]
    simp only [Bool.or_eq_true, not_or, Bool.not_eq_true] at hc
    exact hc.2

/-- `Render` does not touch the stored settings. -/
theorem render_settings (self : RGBToCRT) (w h : Nat) (cur prev : TextureHandle) :
    (RGBToCRT.Render self w h cur prev).1.screenSettings = self.screenSettings := by
  unfold RGBToCRT.Render
  split_ifs <;> rfl

/-- With a clear flag and a matching texture, `Render` uploads the constants and
runs the final pass, nothing else, and leaves the object as it was. -/
theorem render_clean (self : RGBToCRT) (w h : Nat) (cur prev : TextureHandle)
    (hd : self.screenSettingsDirty = false)
    (hm : RGBToCRT.textureMismatch self.screenTexture w h = false) :
    RGBToCRT.Render self w h cur prev
      = (self,
          [ CRTCall.DiscardAndUpdateBuffer BufferRef.constantBuffer
              (BufferData.screen (RGBToCRT.screenConstants self w h)),
            CRTCall.RenderQuadWithPixelShader PixelShader.IDR_RGB_TO_CRT
              RenderTarget.backbuffer
              [ ShaderInput.texture (TextureRef.input cur),
                ShaderInput.texture (TextureRef.input prev),
                ShaderInput.texture TextureRef.screenTexture ]
              [SamplerType.Clamp] [BufferRef.constantBuffer] ]) := by
  unfold RGBToCRT.Render
  simp [hd, hm]

/-- The generate-screen-texture pass runs exactly when the flag is set or the
texture mismatches. -/
theorem render_generates_iff (self : RGBToCRT) (w h : Nat) (cur prev : TextureHandle) :
    runsPass PixelShader.IDR_GENERATE_SCREEN_TEXTURE (RGBToCRT.Render self w h cur prev).2
        = true
      ↔ self.screenSettingsDirty = true
        ∨ RGBToCRT.textureMismatch self.screenTexture w h = true := by
  unfold RGBToCRT.Render
  by_cases hc : (self.screenSettingsDirty || RGBToCRT.textureMismatch self.screenTexture w h)
      = true
  · simp only [hc, if_true]
    have hc2 := hc
    simp only [Bool.or_eq_true] at hc2
    simp [runsPass, hc2]
  · simp only [hc, Bool.false_eq_true, if_false]
    simp only [Bool.or_eq_true] at hc
    simp [runsPass, hc]

/-! ### C5 -/

/-- C5: after `SetScreenSettings s` and one `Render` at output size `(w, h)`, a
second `Render` at the same size - directly, or after a further
`SetScreenSettings` with the identical `s` - issues exactly two device calls, the
upload of the constants and the final RGB-to-screen pass: it creates no texture
and does not run the generate-screen-texture pass. -/
theorem second_render_reuses_texture (self : RGBToCRT) (s : ScreenSettings) (w h : Nat)
    (cur prev cur2 prev2 : TextureHandle) :
    (RGBToCRT.Render
        (RGBToCRT.Render (RGBToCRT.SetScreenSettings self s) w h cur prev).1
        w h cur2 prev2).2
        = [ CRTCall.DiscardAndUpdateBuffer BufferRef.constantBuffer
              (BufferData.screen (RGBToCRT.screenConstants
                (RGBToCRT.Render (RGBToCRT.SetScreenSettings self s) w h cur prev).1 w h)),
            CRTCall.RenderQuadWithPixelShader PixelShader.IDR_RGB_TO_CRT
              RenderTarget.backbuffer
              [ ShaderInput.texture (TextureRef.input cur2),
                ShaderInput.texture (TextureRef.input prev2),
                ShaderInput.texture TextureRef.screenTexture ]
              [SamplerType.Clamp] [BufferRef.constantBuffer] ]
      ∧ (RGBToCRT.Render
          (RGBToCRT.SetScreenSettings
            (RGBToCRT.Render (RGBToCRT.SetScreenSettings self s) w h cur prev).1 s)
          w h cur2 prev2).2
        = (RGBToCRT.Render
            (RGBToCRT.Render (RGBToCRT.SetScreenSettings self s) w h cur prev).1
            w h cur2 prev2).2
      ∧ createsTexture (RGBToCRT.Render
          (RGBToCRT.Render (RGBToCRT.SetScreenSettings self s) w h cur prev).1
          w h cur2 prev2).2 = false
      ∧ runsPass PixelShader.IDR_GENERATE_SCREEN_TEXTURE (RGBToCRT.Render
          (RGBToCRT.Render (RGBToCRT.SetScreenSettings self s) w h cur prev).1
          w h cur2 prev2).2 = false := by
  have hd := render_dirty (RGBToCRT.SetScreenSettings self s) w h cur prev
  have hm := render_texture (RGBToCRT.SetScreenSettings self s) w h cur prev
  have hs : (RGBToCRT.Render (RGBToCRT.SetScreenSettings self s) w h cur prev).1.screenSettings
      = s := by
    rw [render_settings, setScreenSettings_settings]
  have hsame : RGBToCRT.SetScreenSettings
      (RGBToCRT.Render (RGBToCRT.SetScreenSettings self s) w h cur prev).1 s
        = (RGBToCRT.Render (RGBToCRT.SetScreenSettings self s) w h cur prev).1 := by
    have key : ∀ st : RGBToCRT, st.screenSettings = s →
        RGBToCRT.SetScreenSettings st s = st := by
      intro st hst
      subst hst
      exact setScreenSettings_same st
    exact key _ hs
  rw [hsame, render_clean _ w h cur2 prev2 hd hm]
  refine ⟨rfl, rfl, ?_, ?_⟩
  · simp [createsTexture]
  · simp [runsPass]

/-! ### C6 -/

/-- Running a sequence and then one more call. -/
theorem run_concat (self : RGBToCRT) (ops : List CRTOp) (op : CRTOp) :
    RGBToCRT.run self (ops ++ [op]) = (RGBToCRT.step (RGBToCRT.run self ops) op).1 := by
  simp [RGBToCRT.run, List.foldl_append]

/-- The dirty flag after a sequence of host calls, started with a clear flag, is
set exactly when some `SetScreenSettings` call after the last `Render` changed
the stored settings. -/
theorem dirty_iff_changed_since_render (self : RGBToCRT)
    (h0 : self.screenSettingsDirty = false) (ops : List CRTOp) :
    (RGBToCRT.run self ops).screenSettingsDirty = true
      ↔ ∃ pre s post, ops = pre ++ CRTOp.SetScreenSettings s :: post
          ∧ (∀ op ∈ post, CRTOp.isRender op = false)
          ∧ s ≠ (RGBToCRT.run self pre).screenSettings := by
  induction ops using List.reverseRecOn with
  | nil =>
    constructor
    · intro h
      simp [RGBToCRT.run, h0] at h
    · rintro ⟨pre, s, post, h, -, -⟩
      simp at h
  | append_singleton ops op ih =>
    rw [run_concat]
    cases op with
    | Render w h cur prev =>
      constructor
      · intro hd
        simp [RGBToCRT.step, render_dirty] at hd
      · rintro ⟨pre, s, post, heq, hpost, -⟩
        exfalso
        rcases List.eq_nil_or_concat post with hnil | ⟨L, b, hL⟩
        · subst hnil
          have := congrArg List.getLast? heq
          simp at this
        · subst hL
          have heq2 : ops ++ [CRTOp.Render w h cur prev]
              = (pre ++ CRTOp.SetScreenSettings s :: L) ++ [b] := by
            rw [heq]; simp
          have hb := (List.append_inj' heq2 rfl).2
          have hb2 : b = CRTOp.Render w h cur prev := by simpa using hb.symm
          have := hpost b (by simp)
          rw [hb2] at this
          simp [CRTOp.isRender] at this
    | SetScreenSettings s1 =>
      constructor
      · intro hd
        by_cases hne : s1 ≠ (RGBToCRT.run self ops).screenSettings
        · exact ⟨ops, s1, [], rfl, by simp, hne⟩
        · have hold : (RGBToCRT.run self ops).screenSettingsDirty = true := by
            simpa [RGBToCRT.step, RGBToCRT.SetScreenSettings, hne] using hd
          obtain ⟨pre, s, post, heq, hpost, hs⟩ := ih.mp hold
          refine ⟨pre, s, post ++ [CRTOp.SetScreenSettings s1], ?_, ?_, hs⟩
          · rw [heq]; simp
          · intro op hop
            rcases List.mem_append.mp hop with hin | hin
            · exact hpost op hin
            · have : op = CRTOp.SetScreenSettings s1 := by simpa using hin
              rw [this]; rfl
      · rintro ⟨pre, s, post, heq, hpost, hs⟩
        rcases List.eq_nil_or_concat post with hnil | ⟨L, b, hL⟩
        · subst hnil
          have hinj := List.append_inj' heq rfl
          have hpre : ops = pre := hinj.1
          have hs1 : s1 = s := by simpa using hinj.2
          subst hpre
          subst hs1
          simp [RGBToCRT.step, RGBToCRT.SetScreenSettings, hs]
        · subst hL
          have heq2 : ops ++ [CRTOp.SetScreenSettings s1]
              = (pre ++ CRTOp.SetScreenSettings s :: L) ++ [b] := by
            rw [heq]; simp
          have hops := (List.append_inj' heq2 rfl).1
          have hold : (RGBToCRT.run self ops).screenSettingsDirty = true :=
            ih.mpr ⟨pre, s, L, hops, fun op hop => hpost op (by simp [hop]), hs⟩
          simp only [RGBToCRT.step, RGBToCRT.SetScreenSettings]
          split_ifs
          · rfl
          · exact hold

/-- C6 fails as stated: construct with settings A, `Render` at 640x480, set B, set
A again, `Render` at 640x480.  The last `Render` re-runs the generation pass
although a cached 640x480 texture exists and the current settings (A) are the
settings the texture was last generated with. -/
theorem regenerates_with_unchanged_snapshot :
    runsPass PixelShader.IDR_GENERATE_SCREEN_TEXTURE
        (RGBToCRT.Render
          (RGBToCRT.run (sampleCRT 256 240 (overscanSettings 0 0 0 0))
            [ CRTOp.Render 640 480 0 1,
              CRTOp.SetScreenSettings (overscanSettings 8 8 0 0),
              CRTOp.SetScreenSettings (overscanSettings 0 0 0 0) ])
          640 480 0 1).2 = true
      ∧ (RGBToCRT.run (sampleCRT 256 240 (overscanSettings 0 0 0 0))
            [ CRTOp.Render 640 480 0 1,
              CRTOp.SetScreenSettings (overscanSettings 8 8 0 0),
              CRTOp.SetScreenSettings (overscanSettings 0 0 0 0) ]).screenTexture
          = some { width := 640, height := 480, mipCount := 1,
                   format := TextureFormat.DXGI_FORMAT_R16G16B16A16_FLOAT }
      ∧ RGBToCRT.snapshotAfter (sampleCRT 256 240 (overscanSettings 0 0 0 0)) none
            [ CRTOp.Render 640 480 0 1,
              CRTOp.SetScreenSettings (overscanSettings 8 8 0 0),
              CRTOp.SetScreenSettings (overscanSettings 0 0 0 0) ]
          = some (RGBToCRT.run (sampleCRT 256 240 (overscanSettings 0 0 0 0))
            [ CRTOp.Render 640 480 0 1,
              CRTOp.SetScreenSettings (overscanSettings 8 8 0 0),
              CRTOp.SetScreenSettings (overscanSettings 0 0 0 0) ]).screenSettings := by
  decide

/-- C6 (amended): on an `RGBToCRT` driven from its construction by any sequence
of `SetScreenSettings` and `Render` calls, a `Render` re-runs the
projection-texture generation exactly when there is no cached texture, or the
output size differs from the cached texture's size, or some `SetScreenSettings`
call made after the last `Render` was given settings that differ from the
settings stored at that moment; in every other case the cached texture is reused
without regeneration. -/
theorem render_regenerates_iff (defaults : ScreenSettings) (inW sigW lines : Nat)
    (ops : List CRTOp) (w h : Nat) (cur prev : TextureHandle) :
    runsPass PixelShader.IDR_GENERATE_SCREEN_TEXTURE
        (RGBToCRT.Render (RGBToCRT.run (RGBToCRT.new defaults inW sigW lines).1 ops)
          w h cur prev).2 = true
      ↔ (RGBToCRT.run (RGBToCRT.new defaults inW sigW lines).1 ops).screenTexture = none
        ∨ (∃ tex,
            (RGBToCRT.run (RGBToCRT.new defaults inW sigW lines).1 ops).screenTexture
              = some tex ∧ (tex.width ≠ w ∨ tex.height ≠ h))
        ∨ ∃ pre s post, ops = pre ++ CRTOp.SetScreenSettings s :: post
            ∧ (∀ op ∈ post, CRTOp.isRender op = false)
            ∧ s ≠ (RGBToCRT.run (RGBToCRT.new defaults inW sigW lines).1 pre).screenSettings := by
  rw [render_generates_iff,
    dirty_iff_changed_since_render (RGBToCRT.new defaults inW sigW lines).1 rfl ops,
    textureMismatch_iff]
  exact or_comm.trans or_assoc

/-! ### C7 -/

/-- The loop entered at `destMip = 1` with eight levels runs seven rounds. -/
theorem downsampleLoop_eight :
    RGBToCRT.downsampleLoop 8 1 = (List.range 7).map fun i => downsamplePass (i + 1) := by
  simp [RGBToCRT.downsampleLoop, downsamplePass, List.range, List.range.loop]

/-- C7: `GenerateShadowMaskTexture` creates a 512x256 texture with 8 mip levels,
renders the base pattern into it (mip level 0) with no input texture, and then
issues exactly the 7 downsample passes `n = 1, ..., 7` in increasing order, pass
`n` reading only mip level `n - 1` and writing only mip level `n`; the levels
written are 0, 1, ..., 7, each once. -/
theorem generateShadowMaskTexture_passes (self : RGBToCRT) :
    (RGBToCRT.GenerateShadowMaskTexture self).2
        = [ CRTCall.CreateTexture
              { width := 512, height := 256, mipCount := 8,
                format := TextureFormat.DXGI_FORMAT_R8G8B8A8_UNORM },
            CRTCall.DiscardAndUpdateBuffer BufferRef.constBuf
              (BufferData.shadowMask
                { blackLevel := 0, coordinateScale := 1 / 512, texWidth := 512,
                  texHeight := 256 }),
            CRTCall.RenderQuadWithPixelShader PixelShader.IDR_GENERATE_SHADOW_MASK
              (RenderTarget.texture TextureRef.shadowMaskTexture) [] [SamplerType.Clamp]
              [BufferRef.constBuf],
            downsamplePass 1, downsamplePass 2, downsamplePass 3, downsamplePass 4,
            downsamplePass 5, downsamplePass 6, downsamplePass 7 ]
      ∧ (RGBToCRT.GenerateShadowMaskTexture self).1.shadowMaskTexture
        = some { width := 512, height := 256, mipCount := 8,
                 format := TextureFormat.DXGI_FORMAT_R8G8B8A8_UNORM }
      ∧ ((RGBToCRT.GenerateShadowMaskTexture self).2.filterMap writtenShadowMaskLevel)
        = [0, 1, 2, 3, 4, 5, 6, 7] := by
  have hcalls : (RGBToCRT.GenerateShadowMaskTexture self).2
      = [ CRTCall.CreateTexture
              { width := 512, height := 256, mipCount := 8,
                format := TextureFormat.DXGI_FORMAT_R8G8B8A8_UNORM },
            CRTCall.DiscardAndUpdateBuffer BufferRef.constBuf
              (BufferData.shadowMask
                { blackLevel := 0, coordinateScale := 1 / 512, texWidth := 512,
                  texHeight := 256 }),
            CRTCall.RenderQuadWithPixelShader PixelShader.IDR_GENERATE_SHADOW_MASK
              (RenderTarget.texture TextureRef.shadowMaskTexture) [] [SamplerType.Clamp]
              [BufferRef.constBuf],
            downsamplePass 1, downsamplePass 2, downsamplePass 3, downsamplePass 4,
            downsamplePass 5, downsamplePass 6, downsamplePass 7 ] := by
    simp only [RGBToCRT.GenerateShadowMaskTexture, downsampleLoop_eight]
    norm_num [List.range, List.range.loop]
  refine ⟨hcalls, ?_, ?_⟩
  · simp [RGBToCRT.GenerateShadowMaskTexture]
  · rw [hcalls]
    simp [writtenShadowMaskLevel, downsamplePass]

/-! ### C8 -/

/-- C8 fails as stated: with the same settings and the same input width 256,
`shadowMaskScaleX` is `80.64` for 240 scanlines and `40.32` for 480 scanlines. -/
theorem shadowMaskScaleX_depends_on_scanlineCount :
    (sampleCRT 256 240 (overscanSettings 0 0 0 0)).screenSettings
        = (sampleCRT 256 480 (overscanSettings 0 0 0 0)).screenSettings
      ∧ (sampleCRT 256 240 (overscanSettings 0 0 0 0)).inputImageWidth
        = (sampleCRT 256 480 (overscanSettings 0 0 0 0)).inputImageWidth
      ∧ (RGBToCRT.screenConstants (sampleCRT 256 240 (overscanSettings 0 0 0 0))
          1920 1080).shadowMaskScaleX = 2016 / 25
      ∧ (RGBToCRT.screenConstants (sampleCRT 256 480 (overscanSettings 0 0 0 0))
          1920 1080).shadowMaskScaleX = 1008 / 25
      ∧ (RGBToCRT.screenConstants (sampleCRT 256 240 (overscanSettings 0 0 0 0))
          1920 1080).shadowMaskScaleX
        ≠ (RGBToCRT.screenConstants (sampleCRT 256 480 (overscanSettings 0 0 0 0))
          1920 1080).shadowMaskScaleX := by
  have h240 : (RGBToCRT.screenConstants (sampleCRT 256 240 (overscanSettings 0 0 0 0))
      1920 1080).shadowMaskScaleX = 2016 / 25 := by
    simp only [RGBToCRT.screenConstants, sampleCRT_fields, overscanSettings,
      RGBToCRT.shadowMaskScaleNormalization]
    norm_num
  have h480 : (RGBToCRT.screenConstants (sampleCRT 256 480 (overscanSettings 0 0 0 0))
      1920 1080).shadowMaskScaleX = 1008 / 25 := by
    simp only [RGBToCRT.screenConstants, sampleCRT_fields, overscanSettings,
      RGBToCRT.shadowMaskScaleNormalization]
    norm_num
  refine ⟨rfl, rfl, h240, h480, ?_⟩
  rw [h240, h480]
  norm_num

/-- C8 (amended): for fixed `ScreenSettings` and a fixed input width,
`shadowMaskScaleY` is the same for every scanline count, namely
`240 * 0.7 * shadowMaskScale` (the 240-scanline reference height);
`shadowMaskScaleX` is
`inputImageWidth / scanlineCount * inputPixelAspectRatio * 0.45 * shadowMaskScaleY`,
so for scanline counts above zero the product `shadowMaskScaleX * scanlineCount` is
the same for every scanline count. -/
theorem shadowMaskScale_scanlineCount (self : RGBToCRT) (lines outW outH outW2 outH2 : Nat)
    (h1 : 0 < self.scanlineCount) (h2 : 0 < lines) :
    (RGBToCRT.screenConstants { self with scanlineCount := lines } outW2 outH2).shadowMaskScaleY
        = (RGBToCRT.screenConstants self outW outH).shadowMaskScaleY
      ∧ (RGBToCRT.screenConstants self outW outH).shadowMaskScaleY
        = 240 * (7 / 10) * self.screenSettings.shadowMaskScale
      ∧ (RGBToCRT.screenConstants self outW outH).shadowMaskScaleX
        = (self.inputImageWidth : ℚ) / (self.scanlineCount : ℚ)
            * self.screenSettings.inputPixelAspectRatio * (45 / 100)
            * (RGBToCRT.screenConstants self outW outH).shadowMaskScaleY
      ∧ (RGBToCRT.screenConstants { self with scanlineCount := lines }
            outW2 outH2).shadowMaskScaleX * (lines : ℚ)
        = (RGBToCRT.screenConstants self outW outH).shadowMaskScaleX
            * (self.scanlineCount : ℚ) := by
  have hl1 : (self.scanlineCount : ℚ) ≠ 0 := by exact_mod_cast h1.ne'
  have hl2 : (lines : ℚ) ≠ 0 := by exact_mod_cast h2.ne'
  refine ⟨rfl, rfl, ?_, ?_⟩
  · simp only [RGBToCRT.screenConstants]
    ring
  · simp only [RGBToCRT.screenConstants]
    field_simp
    ring

/-- The scanline counts 240 and 480 at width 256: the product is the same. -/
theorem shadowMaskScale_scanlineCount_witness :
    (RGBToCRT.screenConstants
          { sampleCRT 256 240 (overscanSettings 0 0 0 0) with scanlineCount := 480 }
          1920 1080).shadowMaskScaleX * ((480 : Nat) : ℚ)
      = (RGBToCRT.screenConstants (sampleCRT 256 240 (overscanSettings 0 0 0 0))
          1920 1080).shadowMaskScaleX
          * (((sampleCRT 256 240 (overscanSettings 0 0 0 0)).scanlineCount : Nat) : ℚ) :=
  (shadowMaskScale_scanlineCount (sampleCRT 256 240 (overscanSettings 0 0 0 0)) 480
    1920 1080 1920 1080 (by decide) (by decide)).2.2.2

/-! ### C9 -/

/-- With `instabilityScale = 0` the perturbation is zero for every seed. -/
theorem perturbation_zero (K : EncoderKernels) (seed x y : Nat) :
    K.perturbation 0 seed x y = 0 := by
  simp [EncoderKernels.perturbation]

/-- C10: with `artifactSettings.instabilityScale = 0`, two `Generate` calls on
encoders that differ only in `noiseSeed`, with the same arguments and on the same
device, leave the same content in every texture, the phase texture and the signal
texture included, and write the same `SignalLevels`: the output does not depend
on `noiseSeed`. -/
theorem generate_output_ignores_seed (K : EncoderKernels) (k : Nat)
    (self : RGBToSVideoOrComposite) (seed1 seed2 : Nat) (a : GenerateArgs) (d : DeviceState)
    (h0 : a.artifactSettings.instabilityScale = 0) :
    (DeviceState.execAll K d
        (RGBToSVideoOrComposite.Generate k { self with noiseSeed := seed1 } a).calls).textures
        = (DeviceState.execAll K d
        (RGBToSVideoOrComposite.Generate k { self with noiseSeed := seed2 } a).calls).textures
      ∧ (RGBToSVideoOrComposite.Generate k { self with noiseSeed := seed1 } a).levelsOut
        = (RGBToSVideoOrComposite.Generate k { self with noiseSeed := seed2 } a).levelsOut := by
  refine ⟨?_, rfl⟩
  have hphase : K.runGeneratePhaseTexture
      (RGBToSVideoOrComposite.phaseConstants k { self with noiseSeed := seed1 } a)
        = K.runGeneratePhaseTexture
      (RGBToSVideoOrComposite.phaseConstants k { self with noiseSeed := seed2 } a) := by
    funext x y
    simp only [EncoderKernels.runGeneratePhaseTexture, RGBToSVideoOrComposite.phaseConstants,
      h0, perturbation_zero]
  have hencode : ∀ inputs : List Image, K.runRGBToSVideoOrComposite
      (RGBToSVideoOrComposite.encodeConstants k { self with noiseSeed := seed1 } a) inputs
        = K.runRGBToSVideoOrComposite
      (RGBToSVideoOrComposite.encodeConstants k { self with noiseSeed := seed2 } a) inputs := by
    intro inputs
    funext x y
    simp only [EncoderKernels.runRGBToSVideoOrComposite,
      RGBToSVideoOrComposite.encodeConstants, h0, perturbation_zero]
  simp only [RGBToSVideoOrComposite.Generate, DeviceState.execAll, List.foldl_cons,
    List.foldl_nil, DeviceState.exec, hphase, hencode]

/-- Seeds 0 and 1 on the sample kernels, whose noise differs between the seeds. -/
theorem generate_output_ignores_seed_witness :
    sampleKernels.noise 0 0 0 ≠ sampleKernels.noise 1 0 0
      ∧ (DeviceState.execAll sampleKernels emptyDevice
          (RGBToSVideoOrComposite.Generate 4
            { RGBToSVideoOrComposite.new 256 1024 240 with noiseSeed := 0 }
            sampleGenerateArgs).calls).textures
        = (DeviceState.execAll sampleKernels emptyDevice
          (RGBToSVideoOrComposite.Generate 4
            { RGBToSVideoOrComposite.new 256 1024 240 with noiseSeed := 1 }
            sampleGenerateArgs).calls).textures :=
  ⟨by norm_num [sampleKernels],
    (generate_output_ignores_seed sampleKernels 4 (RGBToSVideoOrComposite.new 256 1024 240)
      0 1 sampleGenerateArgs emptyDevice rfl).1⟩

/-! ### C11 -/

/-- The fit block of `Render` in terms of its local `k_aspect`: the two branches,
the bounds, and the test input of the specification. -/
theorem viewScale_fit_of_k_aspect (self : RGBToCRT) (outW outH : Nat)
    (hW : 0 < outW) (hH : 0 < outH) (ha : 0 < RGBToCRT.k_aspect self) :
    ((outW : ℚ) > RGBToCRT.k_aspect self * (outH : ℚ) →
        (RGBToCRT.screenConstants self outW outH).viewScaleY = 1
          ∧ (RGBToCRT.screenConstants self outW outH).viewScaleX
            = (outW : ℚ) / (RGBToCRT.k_aspect self * (outH : ℚ))
          ∧ 1 < (RGBToCRT.screenConstants self outW outH).viewScaleX)
      ∧ (¬ (outW : ℚ) > RGBToCRT.k_aspect self * (outH : ℚ) →
        (RGBToCRT.screenConstants self outW outH).viewScaleX = 1
          ∧ (RGBToCRT.screenConstants self outW outH).viewScaleY
            = RGBToCRT.k_aspect self * (outH : ℚ) / (outW : ℚ)
          ∧ 1 ≤ (RGBToCRT.screenConstants self outW outH).viewScaleY)
      ∧ 1 ≤ (RGBToCRT.screenConstants self outW outH).viewScaleX
      ∧ 1 ≤ (RGBToCRT.screenConstants self outW outH).viewScaleY
      ∧ ((RGBToCRT.screenConstants self outW outH).viewScaleX = 1
          ∨ (RGBToCRT.screenConstants self outW outH).viewScaleY = 1)
      ∧ (self.inputImageWidth = 256 → self.scanlineCount = 240 →
          self.screenSettings.overscanLeft = 8 → self.screenSettings.overscanRight = 8 →
          self.screenSettings.overscanTop = 0 → self.screenSettings.overscanBottom = 0 →
          self.screenSettings.inputPixelAspectRatio = 1 → outW = 1920 → outH = 1080 →
          (RGBToCRT.screenConstants self outW outH).viewScaleX = 16 / 9
            ∧ (RGBToCRT.screenConstants self outW outH).viewScaleY = 1) := by
  have hw : (0 : ℚ) < (outW : ℚ) := by exact_mod_cast hW
  have hh : (0 : ℚ) < (outH : ℚ) := by exact_mod_cast hH
  have hah : 0 < RGBToCRT.k_aspect self * (outH : ℚ) := mul_pos ha hh
  have hwide : (outW : ℚ) > RGBToCRT.k_aspect self * (outH : ℚ) →
      (RGBToCRT.screenConstants self outW outH).viewScaleY = 1
        ∧ (RGBToCRT.screenConstants self outW outH).viewScaleX
          = (outW : ℚ) / (RGBToCRT.k_aspect self * (outH : ℚ))
        ∧ 1 < (RGBToCRT.screenConstants self outW outH).viewScaleX := by
    intro hgt
    simp only [RGBToCRT.screenConstants, hgt, decide_True, if_true]
    exact ⟨trivial, trivial, (one_lt_div hah).mpr hgt⟩
  have hnarrow : ¬ (outW : ℚ) > RGBToCRT.k_aspect self * (outH : ℚ) →
      (RGBToCRT.screenConstants self outW outH).viewScaleX = 1
        ∧ (RGBToCRT.screenConstants self outW outH).viewScaleY
          = RGBToCRT.k_aspect self * (outH : ℚ) / (outW : ℚ)
        ∧ 1 ≤ (RGBToCRT.screenConstants self outW outH).viewScaleY := by
    intro hle
    have hy : (outH : ℚ) / ((outW : ℚ) / RGBToCRT.k_aspect self)
        = RGBToCRT.k_aspect self * (outH : ℚ) / (outW : ℚ) := by
      field_simp
      ring
    simp only [RGBToCRT.screenConstants, hle, decide_False, Bool.false_eq_true, if_false, hy]
    exact ⟨trivial, trivial, (one_le_div hw).mpr (not_lt.mp hle)⟩
  refine ⟨hwide, hnarrow, ?_, ?_, ?_, ?_⟩
  · by_cases hc : (outW : ℚ) > RGBToCRT.k_aspect self * (outH : ℚ)
    · exact (hwide hc).2.2.le
    · exact (hnarrow hc).1.ge
  · by_cases hc : (outW : ℚ) > RGBToCRT.k_aspect self * (outH : ℚ)
    · exact (hwide hc).1.ge
    · exact (hnarrow hc).2.2
  · by_cases hc : (outW : ℚ) > RGBToCRT.k_aspect self * (outH : ℚ)
    · exact Or.inr (hwide hc).1
    · exact Or.inl (hnarrow hc).1
  · intro h1 h2 h3 h4 h5 h6 h7 h8 h9
    have hk : RGBToCRT.k_aspect self = 1 := by
      simp only [RGBToCRT.k_aspect, RGBToCRT.overscanSizeX, RGBToCRT.overscanSizeY, add32,
        h1, h2, h3, h4, h5, h6, h7]
      norm_num
    have hgt : (outW : ℚ) > RGBToCRT.k_aspect self * (outH : ℚ) := by
      rw [hk, h8, h9]
      norm_num
    obtain ⟨hy1, hx1, -⟩ := hwide hgt
    refine ⟨?_, hy1⟩
    rw [hx1, hk, h8, h9]
    norm_num

/-- C11: for an output of `outW > 0` by `outH > 0` and an effective aspect
`a = inputPixelAspectRatio * (inputImageWidth - (overscanLeft + overscanRight))
/ (scanlineCount - (overscanTop + overscanBottom)) > 0` (the sums being 32-bit
unsigned), `Render` letterboxes one axis: if `outW > a * outH` then
`viewScaleY = 1` and `viewScaleX = outW / (a * outH) > 1`, otherwise
`viewScaleX = 1` and `viewScaleY = a * outH / outW >= 1`; so both scales are at
least 1 and at least one equals 1.  For a 256x240 source with margins 8, 8, 0, 0,
pixel aspect ratio 1 and a 1920x1080 output the pair is `viewScaleX = 16 / 9`,
`viewScaleY = 1`.  Arithmetic is read as exact. -/
theorem viewScale_letterbox (self : RGBToCRT) (outW outH : Nat) (a : ℚ)
    (hW : 0 < outW) (hH : 0 < outH)
    (hdef : a = self.screenSettings.inputPixelAspectRatio
        * ((self.inputImageWidth : ℚ)
          - (((self.screenSettings.overscanLeft + self.screenSettings.overscanRight)
              % 2 ^ 32 : Nat) : ℚ))
        / ((self.scanlineCount : ℚ)
          - (((self.screenSettings.overscanTop + self.screenSettings.overscanBottom)
              % 2 ^ 32 : Nat) : ℚ)))
    (ha : 0 < a) :
    ((outW : ℚ) > a * (outH : ℚ) →
        (RGBToCRT.screenConstants self outW outH).viewScaleY = 1
          ∧ (RGBToCRT.screenConstants self outW outH).viewScaleX
            = (outW : ℚ) / (a * (outH : ℚ))
          ∧ 1 < (RGBToCRT.screenConstants self outW outH).viewScaleX)
      ∧ (¬ (outW : ℚ) > a * (outH : ℚ) →
        (RGBToCRT.screenConstants self outW outH).viewScaleX = 1
          ∧ (RGBToCRT.screenConstants self outW outH).viewScaleY
            = a * (outH : ℚ) / (outW : ℚ)
          ∧ 1 ≤ (RGBToCRT.screenConstants self outW outH).viewScaleY)
      ∧ 1 ≤ (RGBToCRT.screenConstants self outW outH).viewScaleX
      ∧ 1 ≤ (RGBToCRT.screenConstants self outW outH).viewScaleY
      ∧ ((RGBToCRT.screenConstants self outW outH).viewScaleX = 1
          ∨ (RGBToCRT.screenConstants self outW outH).viewScaleY = 1)
      ∧ (self.inputImageWidth = 256 → self.scanlineCount = 240 →
          self.screenSettings.overscanLeft = 8 → self.screenSettings.overscanRight = 8 →
          self.screenSettings.overscanTop = 0 → self.screenSettings.overscanBottom = 0 →
          self.screenSettings.inputPixelAspectRatio = 1 → outW = 1920 → outH = 1080 →
          (RGBToCRT.screenConstants self outW outH).viewScaleX = 16 / 9
            ∧ (RGBToCRT.screenConstants self outW outH).viewScaleY = 1) := by
  have hk : RGBToCRT.k_aspect self = a := by
    rw [hdef]
    simp only [RGBToCRT.k_aspect, RGBToCRT.overscanSizeX, RGBToCRT.overscanSizeY, add32]
  rw [← hk] at ha ⊢
  exact viewScale_fit_of_k_aspect self outW outH hW hH ha

/-- Three inputs on a 256x240 source.  Margins 8, 8, 8, 8 with pixel aspect ratio
`8 / 7` give the effective aspect `60 / 49`: a 1920x1080 output takes the wide
branch (`viewScaleX = 196 / 135`, `viewScaleY = 1`), a 1000x1000 output the other
branch (`viewScaleX = 1`, `viewScaleY = 60 / 49`).  The test input of the
specification (margins 8, 8, 0, 0, square pixels, 1920x1080) gives `16 / 9`
and `1`. -/
theorem viewScale_letterbox_witness :
    ((RGBToCRT.screenConstants (sampleCRT 256 240 widePixelSettings)
          1920 1080).viewScaleY = 1
        ∧ (RGBToCRT.screenConstants (sampleCRT 256 240 widePixelSettings)
          1920 1080).viewScaleX = ((1920 : Nat) : ℚ) / (60 / 49 * ((1080 : Nat) : ℚ))
        ∧ 1 < (RGBToCRT.screenConstants (sampleCRT 256 240 widePixelSettings)
          1920 1080).viewScaleX)
      ∧ ((RGBToCRT.screenConstants (sampleCRT 256 240 widePixelSettings)
          1000 1000).viewScaleX = 1
        ∧ (RGBToCRT.screenConstants (sampleCRT 256 240 widePixelSettings)
          1000 1000).viewScaleY = 60 / 49 * ((1000 : Nat) : ℚ) / ((1000 : Nat) : ℚ)
        ∧ 1 ≤ (RGBToCRT.screenConstants (sampleCRT 256 240 widePixelSettings)
          1000 1000).viewScaleY)
      ∧ ((RGBToCRT.screenConstants (sampleCRT 256 240 (overscanSettings 8 8 0 0))
          1920 1080).viewScaleX = 16 / 9
        ∧ (RGBToCRT.screenConstants (sampleCRT 256 240 (overscanSettings 8 8 0 0))
          1920 1080).viewScaleY = 1) :=
  ⟨(viewScale_letterbox (sampleCRT 256 240 widePixelSettings) 1920 1080 (60 / 49)
      (by decide) (by decide)
      (by
        simp only [sampleCRT_fields, widePixelSettings, overscanSettings]
        norm_num)
      (by norm_num)).1 (by norm_num),
    (viewScale_letterbox (sampleCRT 256 240 widePixelSettings) 1000 1000 (60 / 49)
      (by decide) (by decide)
      (by
        simp only [sampleCRT_fields, widePixelSettings, overscanSettings]
        norm_num)
      (by norm_num)).2.1 (by norm_num),
    (viewScale_letterbox (sampleCRT 256 240 (overscanSettings 8 8 0 0)) 1920 1080 1
      (by decide) (by decide)
      (by
        simp only [sampleCRT_fields, overscanSettings]
        norm_num)
      (by norm_num)).2.2.2.2.2 rfl rfl rfl rfl rfl rfl rfl rfl rfl⟩

/-! ### C12 -/

/-- `Render` allocates a texture exactly when the texture test fails. -/
theorem render_creates_iff (self : RGBToCRT) (w h : Nat) (cur prev : TextureHandle) :
    createsTexture (RGBToCRT.Render self w h cur prev).2 = true
      ↔ RGBToCRT.textureMismatch self.screenTexture w h = true := by
  unfold RGBToCRT.Render
  by_cases hm : RGBToCRT.textureMismatch self.screenTexture w h = true
  · simp [createsTexture, hm]
  · by_cases hd : self.screenSettingsDirty = true
    · simp [createsTexture, hm, hd]
    · simp [createsTexture, hm, hd]

/-- With a matching texture `Render` keeps the texture object it has. -/
theorem render_keeps_texture (self : RGBToCRT) (w h : Nat) (cur prev : TextureHandle)
    (hm : RGBToCRT.textureMismatch self.screenTexture w h = false) :
    (RGBToCRT.Render self w h cur prev).1.screenTexture = self.screenTexture := by
  unfold RGBToCRT.Render
  by_cases hd : self.screenSettingsDirty = true
  · simp [hm, hd]
  · simp [hm, hd]

/-- `SetScreenSettings` does not touch the cached texture. -/
theorem setScreenSettings_texture (self : RGBToCRT) (settings : ScreenSettings) :
    (RGBToCRT.SetScreenSettings self settings).screenTexture = self.screenTexture := by
  unfold RGBToCRT.SetScreenSettings
  split_ifs <;> rfl

/-- On an object with a clear flag, `SetScreenSettings` sets the flag exactly when
its argument differs from the stored settings. -/
theorem setScreenSettings_dirty (self : RGBToCRT) (settings : ScreenSettings)
    (hd : self.screenSettingsDirty = false) :
    (RGBToCRT.SetScreenSettings self settings).screenSettingsDirty = true
      ↔ settings ≠ self.screenSettings := by
  unfold RGBToCRT.SetScreenSettings
  split_ifs with hne
  · simp [hne]
  · simp [hne, hd]

/-- A run of `SetScreenSettings` calls leaves the cached texture as it was. -/
theorem run_sets_texture (sets : List ScreenSettings) :
    ∀ self : RGBToCRT,
      (RGBToCRT.run self (sets.map CRTOp.SetScreenSettings)).screenTexture
        = self.screenTexture := by
  induction sets with
  | nil => intro self; rfl
  | cons s rest ih =>
    intro self
    simp only [List.map_cons, RGBToCRT.run, List.foldl_cons, RGBToCRT.step]
    exact (ih (RGBToCRT.SetScreenSettings self s)).trans (setScreenSettings_texture self s)

/-- A texture that passes the texture test exists and has the tested size. -/
theorem textureMismatch_false_iff (t : Option Texture) (w h : Nat) :
    RGBToCRT.textureMismatch t w h = false
      ↔ ∃ tex, t = some tex ∧ tex.width = w ∧ tex.height = h := by
  cases t with
  | none => simp [RGBToCRT.textureMismatch]
  | some tex => simp [RGBToCRT.textureMismatch]

/-- C12: on an `RGBToCRT` driven from its construction by any sequence of
`SetScreenSettings` and `Render` calls, (1) a `Render` creates a new projection
texture exactly when there is no cached texture or the cached texture's width or
height differs from the backbuffer's; (2) after a `Render` at `(w, h)`, a
`SetScreenSettings` followed by a `Render` at the same `(w, h)` re-runs the
generation pass exactly when the settings changed, creates no texture and keeps
the texture object; (3) after every `Render` the dirty flag is false and the
cached texture exists with exactly the backbuffer's width and height; (4) a
`Render` that is preceded only by `SetScreenSettings` calls since construction
runs the generation pass and creates the texture. -/
theorem render_texture_policy (defaults : ScreenSettings) (inW sigW lines : Nat)
    (ops : List CRTOp) (w h : Nat) (cur prev : TextureHandle) (s2 : ScreenSettings)
    (cur2 prev2 : TextureHandle) (sets : List ScreenSettings) :
    (createsTexture
          (RGBToCRT.Render (RGBToCRT.afterCalls defaults inW sigW lines ops) w h cur prev).2
          = true
        ↔ (RGBToCRT.afterCalls defaults inW sigW lines ops).screenTexture = none
          ∨ ∃ tex, (RGBToCRT.afterCalls defaults inW sigW lines ops).screenTexture = some tex
              ∧ (tex.width ≠ w ∨ tex.height ≠ h))
      ∧ (runsPass PixelShader.IDR_GENERATE_SCREEN_TEXTURE
            (RGBToCRT.Render
              (RGBToCRT.SetScreenSettings
                (RGBToCRT.Render (RGBToCRT.afterCalls defaults inW sigW lines ops)
                  w h cur prev).1 s2)
              w h cur2 prev2).2 = true
          ↔ s2 ≠ (RGBToCRT.afterCalls defaults inW sigW lines ops).screenSettings)
      ∧ createsTexture
          (RGBToCRT.Render
            (RGBToCRT.SetScreenSettings
              (RGBToCRT.Render (RGBToCRT.afterCalls defaults inW sigW lines ops)
                w h cur prev).1 s2)
            w h cur2 prev2).2 = false
      ∧ (RGBToCRT.Render
            (RGBToCRT.SetScreenSettings
              (RGBToCRT.Render (RGBToCRT.afterCalls defaults inW sigW lines ops)
                w h cur prev).1 s2)
            w h cur2 prev2).1.screenTexture
          = (RGBToCRT.Render (RGBToCRT.afterCalls defaults inW sigW lines ops)
              w h cur prev).1.screenTexture
      ∧ (RGBToCRT.Render (RGBToCRT.afterCalls defaults inW sigW lines ops)
            w h cur prev).1.screenSettingsDirty = false
      ∧ (∃ tex, (RGBToCRT.Render (RGBToCRT.afterCalls defaults inW sigW lines ops)
            w h cur prev).1.screenTexture = some tex ∧ tex.width = w ∧ tex.height = h)
      ∧ runsPass PixelShader.IDR_GENERATE_SCREEN_TEXTURE
          (RGBToCRT.Render
            (RGBToCRT.afterCalls defaults inW sigW lines (sets.map CRTOp.SetScreenSettings))
            w h cur prev).2 = true
      ∧ createsTexture
          (RGBToCRT.Render
            (RGBToCRT.afterCalls defaults inW sigW lines (sets.map CRTOp.SetScreenSettings))
            w h cur prev).2 = true := by
  have hd1 := render_dirty (RGBToCRT.afterCalls defaults inW sigW lines ops) w h cur prev
  have hm1 := render_texture (RGBToCRT.afterCalls defaults inW sigW lines ops) w h cur prev
  have hs1 := render_settings (RGBToCRT.afterCalls defaults inW sigW lines ops) w h cur prev
  have hm2 : RGBToCRT.textureMismatch
      (RGBToCRT.SetScreenSettings
        (RGBToCRT.Render (RGBToCRT.afterCalls defaults inW sigW lines ops)
          w h cur prev).1 s2).screenTexture w h = false := by
    rw [setScreenSettings_texture]; exact hm1
  have hnone : (RGBToCRT.afterCalls defaults inW sigW lines
      (sets.map CRTOp.SetScreenSettings)).screenTexture = none := by
    unfold RGBToCRT.afterCalls
    rw [run_sets_texture]
    rfl
  have hmis : RGBToCRT.textureMismatch (RGBToCRT.afterCalls defaults inW sigW lines
      (sets.map CRTOp.SetScreenSettings)).screenTexture w h = true := by
    rw [hnone]; rfl
  refine ⟨?_, ?_, ?_, ?_, hd1, (textureMismatch_false_iff _ w h).mp hm1, ?_, ?_⟩
  · rw [render_creates_iff, textureMismatch_iff]
  · rw [render_generates_iff, setScreenSettings_dirty _ s2 hd1, hs1, hm2]
    simp
  · have hnot := (render_creates_iff
      (RGBToCRT.SetScreenSettings
        (RGBToCRT.Render (RGBToCRT.afterCalls defaults inW sigW lines ops)
          w h cur prev).1 s2) w h cur2 prev2).not
    rw [hm2] at hnot
    simpa using hnot
  · rw [render_keeps_texture _ w h cur2 prev2 hm2, setScreenSettings_texture]
  · exact (render_generates_iff _ w h cur prev).mpr (Or.inr hmis)
  · exact (render_creates_iff _ w h cur prev).mpr hmis

/-! ### C13 -/

/-- C13: in every call of `Generate` the passes are, in this order, the
phase-texture pass writing `phaseTextureOut` and the encode pass, whose second
input is that same `phaseTextureOut`; the encode pass runs with the constant block
whose `compositeBlend` is `1.0` if and only if `signalType` is Composite and `0.0`
for every other signal type (S-Video). -/
theorem encode_pass_blend_and_order (k : Nat) (self : RGBToSVideoOrComposite)
    (a : GenerateArgs) (buffer : Option ConstantPayload) :
    passesWithConstants buffer (RGBToSVideoOrComposite.Generate k self a).calls
        = [ { shader := ShaderID.GeneratePhaseTexture, output := a.phaseTextureOut,
              inputs := [],
              constants := some (ConstantPayload.phase
                (RGBToSVideoOrComposite.phaseConstants k self a)) },
            { shader := ShaderID.RGBToSVideoOrComposite, output := a.signalTextureOut,
              inputs := [a.rgbTexture, a.phaseTextureOut],
              constants := some (ConstantPayload.encode
                (RGBToSVideoOrComposite.encodeConstants k self a)) } ]
      ∧ ((RGBToSVideoOrComposite.encodeConstants k self a).compositeBlend = 1
          ↔ a.signalType = SignalType.Composite)
      ∧ ((RGBToSVideoOrComposite.encodeConstants k self a).compositeBlend = 0
          ↔ a.signalType ≠ SignalType.Composite)
      ∧ ((RGBToSVideoOrComposite.encodeConstants k self a).compositeBlend = 0
          ↔ a.signalType = SignalType.SVideo) := by
  refine ⟨rfl, ?_, ?_, ?_⟩
  · cases hs : a.signalType <;> simp [RGBToSVideoOrComposite.encodeConstants, hs]
  · cases hs : a.signalType <;> simp [RGBToSVideoOrComposite.encodeConstants, hs]
  · cases hs : a.signalType <;> simp [RGBToSVideoOrComposite.encodeConstants, hs]

/-! ### C14 -/

/-- C14: the `Generate` of `Include/` and the `Generate` of `Source/` agree: for
every encoder state and argument list they build the same phase constant block
and the same encode constant block, both carrying the noise seed as it was before
the call, submit the same passes with the same constants in the same order, write
the same `SignalLevels` and leave the same encoder state, the next `noiseSeed`
included. -/
theorem generate_versions_agree (k : Nat) (self : RGBToSVideoOrComposite)
    (a : GenerateArgs) (buffer : Option ConstantPayload) :
    RGBToSVideoOrComposite.phaseConstants k self a
        = RGBToSVideoOrComposite.phaseConstantsSource k self a
      ∧ RGBToSVideoOrComposite.encodeConstants k self a
        = RGBToSVideoOrComposite.encodeConstantsSource k self a
      ∧ (RGBToSVideoOrComposite.phaseConstantsSource k self a).noiseSeed = self.noiseSeed
      ∧ (RGBToSVideoOrComposite.encodeConstantsSource k self a).noiseSeed = self.noiseSeed
      ∧ passesWithConstants buffer (RGBToSVideoOrComposite.Generate k self a).calls
        = passesWithConstants buffer (RGBToSVideoOrComposite.GenerateSource k self a).calls
      ∧ passesWithConstants buffer (RGBToSVideoOrComposite.GenerateSource k self a).calls
        = [ { shader := ShaderID.GeneratePhaseTexture, output := a.phaseTextureOut,
              inputs := [],
              constants := some (ConstantPayload.phase
                (RGBToSVideoOrComposite.phaseConstantsSource k self a)) },
            { shader := ShaderID.RGBToSVideoOrComposite, output := a.signalTextureOut,
              inputs := [a.rgbTexture, a.phaseTextureOut],
              constants := some (ConstantPayload.encode
                (RGBToSVideoOrComposite.encodeConstantsSource k self a)) } ]
      ∧ (RGBToSVideoOrComposite.Generate k self a).levelsOut
        = (RGBToSVideoOrComposite.GenerateSource k self a).levelsOut
      ∧ (RGBToSVideoOrComposite.Generate k self a).self
        = (RGBToSVideoOrComposite.GenerateSource k self a).self
      ∧ (RGBToSVideoOrComposite.GenerateSource k self a).self.noiseSeed
        = (self.noiseSeed + 1) % 2 ^ 20 :=
  ⟨rfl, rfl, rfl, rfl, rfl, rfl, rfl, rfl, nextNoiseSeed_eq self.noiseSeed⟩

end NTSCify
